import Mathlib

/-!
Storefront UI: catalog filter, cart pricing and page handlers

A shallow embedding of the state-handling code of the storefront pages
(`ShopPage.js`, `CartPage.js`, `ProductPage.js`, `HomePage.js`, `AdminPage.js`)
together with the properties of the catalog filter, of the cart pricing and of
the page handlers.

Modelling conventions.
* React component state is an explicit record; a handler is a function from
  the state before to the state after.
* A JavaScript number is modelled by its value: a finite number is a rational,
  and `NaN`, `Infinity`, `-Infinity` are separate constructors. The catalog
  filter compares such values. The cart arithmetic comes twice: `getTotal` and
  `cartPageView` compute over exact rationals, `getTotalDouble` and `cartPage`
  round every product and sum to the nearest IEEE double (`toDouble`), as the
  page does.
* The built-ins `String.prototype.toLowerCase`, `split`, `trim`, `parseFloat`,
  `parseInt` and `Number.prototype.toFixed`, and the value of an
  `<input type="number">`, are modelled by the definitions below.
* An `async` handler takes the outcome of each backend call it awaits as an
  argument and returns what it leaves behind; every `await` sits in a
  `try`/`catch`, so a handler completes normally on both outcomes.
-/

namespace ApexDrop

/-! ## JavaScript values -/

/-- A JavaScript number: a finite value (kept exact), `NaN`, or one of the two
infinities. -/
inductive JSNumber where
  | nan : JSNumber
  | num (q : ℚ) : JSNumber
  | posInf : JSNumber
  | negInf : JSNumber
  deriving DecidableEq

/-- The JavaScript comparison `a >= b`: false as soon as one side is `NaN`. -/
def JSNumber.ge : JSNumber → JSNumber → Bool
  | .nan, _ => false
  | _, .nan => false
  | .num a, .num b => decide (b ≤ a)
  | .posInf, _ => true
  | _, .negInf => true
  | .num _, .posInf => false
  | .negInf, .num _ => false
  | .negInf, .posInf => false

/-- The JavaScript comparison `a <= b`. -/
def JSNumber.le (a b : JSNumber) : Bool := JSNumber.ge b a

/-- The JavaScript comparison `a > b`: false as soon as one side is `NaN`. -/
def JSNumber.gt : JSNumber → JSNumber → Bool
  | .nan, _ => false
  | _, .nan => false
  | .num a, .num b => decide (b < a)
  | .posInf, .posInf => false
  | .posInf, _ => true
  | .negInf, _ => false
  | .num _, .negInf => true
  | .num _, .posInf => false

/-- Unary minus on a JavaScript number. -/
def JSNumber.neg : JSNumber → JSNumber
  | .nan => .nan
  | .num q => .num (-q)
  | .posInf => .negInf
  | .negInf => .posInf

/-- Truthiness of a JavaScript string: every string but the empty one. -/
def truthy (s : String) : Bool := decide (s ≠ "")

/-- `String.prototype.toLowerCase`, on the ASCII letters `A`..`Z`; every other
character is kept. -/
def toLowerCase (s : String) : String := String.mk (s.toList.map Char.toLower)

/-- The characters `parseFloat` skips at the start of its argument
(ECMAScript `WhiteSpace` and `LineTerminator`). -/
def isWhiteSpace (c : Char) : Bool :=
  decide (c.toNat ∈ [0x9, 0xA, 0xB, 0xC, 0xD, 0x20, 0xA0, 0x1680, 0x2028, 0x2029,
    0x202F, 0x205F, 0x3000, 0xFEFF]) || (decide (0x2000 ≤ c.toNat) && decide (c.toNat ≤ 0x200A))

/-- The value of a run of decimal digits. -/
def digitsValue (ds : List Char) : ℕ :=
  ds.foldl (fun acc c => 10 * acc + (c.toNat - 48)) 0

/-- The value of a run of digits when it is not empty. -/
def signedInteger (neg : Bool) (ds : List Char) : Option ℤ :=
  let d := ds.takeWhile Char.isDigit
  if d = [] then none else some (if neg then -(digitsValue d : ℤ) else (digitsValue d : ℤ))

/-- The exponent of an `ExponentPart` (`e` or `E`, an optional sign, at least
one digit) standing at the head of the input; 0 when there is none. -/
def exponentPart : List Char → ℤ
  | [] => 0
  | c :: rest =>
    if c = 'e' ∨ c = 'E' then
      match rest with
      | '+' :: ds => (signedInteger false ds).getD 0
      | '-' :: ds => (signedInteger true ds).getD 0
      | ds => (signedInteger false ds).getD 0
    else 0

/-- The longest prefix that is a `StrUnsignedDecimalLiteral`, as a number;
`NaN` when no prefix is one. -/
def strUnsignedDecimalLiteral (cs : List Char) : JSNumber :=
  if cs.take 8 = "Infinity".toList then .posInf
  else
    let ip := cs.takeWhile Char.isDigit
    match cs.dropWhile Char.isDigit with
    | '.' :: r =>
      let fp := r.takeWhile Char.isDigit
      if ip = [] ∧ fp = [] then .nan
      else .num (((digitsValue ip : ℚ) + (digitsValue fp : ℚ) / (10 : ℚ) ^ fp.length)
        * (10 : ℚ) ^ exponentPart (r.dropWhile Char.isDigit))
    | r => if ip = [] then .nan else .num ((digitsValue ip : ℚ) * (10 : ℚ) ^ exponentPart r)

/-- The built-in `parseFloat` on a string: leading white space is skipped, then
the longest prefix that is a `StrDecimalLiteral` is read; `NaN` when there is
no such prefix. -/
def parseFloat (s : String) : JSNumber :=
  match s.toList.dropWhile isWhiteSpace with
  | '+' :: cs => strUnsignedDecimalLiteral cs
  | '-' :: cs => (strUnsignedDecimalLiteral cs).neg
  | cs => strUnsignedDecimalLiteral cs

/-! ## IEEE double arithmetic -/

/-- The binary exponent of a non-zero rational: the `k` with
`2 ^ k ≤ |q| < 2 ^ (k + 1)`, which is the difference of the numbers of binary
digits of numerator and denominator, or one less. -/
def binade (q : ℚ) : ℤ :=
  let k : ℤ := ((Nat.toDigits 2 q.num.natAbs).length : ℤ) - ((Nat.toDigits 2 q.den).length : ℤ)
  if (2 : ℚ) ^ k ≤ (if q < 0 then -q else q) then k else k - 1

/-- The integer nearest to a rational, the even one of the two when it lies
half-way. -/
def roundHalfEven (q : ℚ) : ℤ :=
  let f : ℤ := ⌊q⌋
  if q - f < 1 / 2 then f
  else if 1 / 2 < q - f then f + 1
  else if f % 2 = 0 then f else f + 1

/-- The IEEE 754 double nearest to a rational (round to nearest, ties to even):
53 significant bits, and the fixed spacing `2 ^ (-1074)` in the subnormal
range. Overflow to `Infinity`, from `2 ^ 1024` on, is not modelled. -/
def toDouble (q : ℚ) : ℚ :=
  if q = 0 then 0
  else
    let e : ℤ := max (binade q - 52) (-1074)
    (roundHalfEven (q / (2 : ℚ) ^ e) : ℚ) * (2 : ℚ) ^ e

/-- The JavaScript `a + b` on finite numbers: the exact sum, rounded. -/
def numAdd (a b : ℚ) : ℚ := toDouble (a + b)

/-- The JavaScript `a * b` on finite numbers: the exact product, rounded. -/
def numMul (a b : ℚ) : ℚ := toDouble (a * b)

/-- `Number.prototype.toFixed(2)` on a finite number of magnitude below
`10 ^ 21`: the sign, then the digits of the integer `n` nearest to 100 times
the magnitude (the larger one on a tie), padded to three digits, with the point
before the last two. -/
def toFixed2 (x : ℚ) : String :=
  let a : ℚ := if x < 0 then -x else x
  let n : ℕ := (⌊a * 100 + 1 / 2⌋ : ℤ).toNat
  let m : List Char := (Nat.repr n).toList
  let m : List Char := List.replicate (3 - m.length) '0' ++ m
  (if x < 0 then "-" else "")
    ++ String.mk (m.take (m.length - 2) ++ '.' :: m.drop (m.length - 2))

/-! ## Data model -/

/-- One size of a product with its stock. -/
structure Size where
  size : String
  stock : ℤ
  deriving DecidableEq

/-- A product as the backend returns it. -/
structure Product where
  id : String
  name : String
  description : String
  price : ℚ
  images : List String
  color : String
  sizes : List Size
  featured : Bool
  deriving DecidableEq

/-! ## ShopPage -/

/-- The `priceRange` state of the shop page: the two bound inputs, as text. -/
structure PriceRange where
  min : String
  max : String
  deriving DecidableEq

/-- The component state of `ShopPage`. -/
structure ShopState where
  products : List Product
  filteredProducts : List Product
  selectedColor : String
  priceRange : PriceRange
  showFilters : Bool
  deriving DecidableEq

/-- `applyFilters` of `ShopPage.js`: three optional `filter` passes over a copy
of `products`, the outcome stored in `filteredProducts`. -/
def applyFilters (s : ShopState) : ShopState :=
  let filtered := s.products
  let filtered :=
    if truthy s.selectedColor then
      filtered.filter (fun p => decide (toLowerCase p.color = toLowerCase s.selectedColor))
    else filtered
  let filtered :=
    if truthy s.priceRange.min then
      filtered.filter (fun p => JSNumber.ge (.num p.price) (parseFloat s.priceRange.min))
    else filtered
  let filtered :=
    if truthy s.priceRange.max then
      filtered.filter (fun p => JSNumber.le (.num p.price) (parseFloat s.priceRange.max))
    else filtered
  { s with filteredProducts := filtered }

/-- The colour criterion as the specification words it: when a colour is set,
the product's colour matches it case-insensitively, as a whole string. -/
def colorOk (selectedColor : String) (p : Product) : Bool :=
  !truthy selectedColor || decide (toLowerCase p.color = toLowerCase selectedColor)

/-- The minimum-price criterion as the specification words it: when a minimum
is set, `price >= minPrice`. -/
def minOk (min : String) (p : Product) : Bool :=
  !truthy min || JSNumber.ge (.num p.price) (parseFloat min)

/-- The maximum-price criterion as the specification words it: when a maximum
is set, `price <= maxPrice`. -/
def maxOk (max : String) (p : Product) : Bool :=
  !truthy max || JSNumber.le (.num p.price) (parseFloat max)

/-- All set criteria of the state, combined with logical AND. -/
def satisfiesAll (s : ShopState) (p : Product) : Bool :=
  colorOk s.selectedColor p && minOk s.priceRange.min p && maxOk s.priceRange.max p

/-! ## CartPage -/

/-- A cart line as the backend stores it. -/
structure CartItem where
  id : String
  user_id : String
  product_id : String
  size : String
  quantity : ℤ
  deriving DecidableEq

/-- One element of the cart response: a cart line with its resolved product. -/
structure CartEntry where
  product : Product
  cart_item : CartItem
  deriving DecidableEq

/-- The component state of `CartPage`. -/
structure CartState where
  cartItems : List CartEntry
  loading : Bool
  deriving DecidableEq

/-- `getTotal` of `CartPage.js` over exact arithmetic: a `reduce` from 0 adding
`item.product.price * item.cart_item.quantity`, nothing rounded. -/
def getTotal (s : CartState) : ℚ :=
  s.cartItems.foldl (fun sum item => sum + item.product.price * (item.cart_item.quantity : ℚ)) 0

/-- What `CartPage` renders, as far as pricing goes, over exact arithmetic: the
loading screen, the empty-cart screen, or the order summary with the arguments
of its three rows (the `toFixed(2)` formatting of the two amounts is left
out). -/
inductive CartView where
  | loading : CartView
  | empty : CartView
  | summary (subtotal : ℚ) (shipping : String) (total : ℚ) : CartView
  deriving DecidableEq

/-- The render of `CartPage` over exact arithmetic: `loading` first, then the
`cartItems.length === 0` branch, otherwise the order summary. -/
def cartPageView (s : CartState) : CartView :=
  if s.loading then .loading
  else if s.cartItems.length = 0 then .empty
  else .summary (getTotal s)
    (if getTotal s ≥ 200 then "FREE" else "$15.00")
    (getTotal s + (if getTotal s ≥ 200 then 0 else 15))

/-- `getTotal` of `CartPage.js` as the page computes it: a `reduce` from 0 in
which each product `item.product.price * item.cart_item.quantity` and each
partial sum is rounded to the nearest double. -/
def getTotalDouble (s : CartState) : ℚ :=
  s.cartItems.foldl
    (fun sum item => numAdd sum (numMul item.product.price (item.cart_item.quantity : ℚ))) 0

/-- What `CartPage` shows, as far as pricing goes: the loading screen, the
empty-cart screen, or the order summary with the texts of its Subtotal,
Shipping and Total rows. -/
inductive CartScreen where
  | loading : CartScreen
  | empty : CartScreen
  | summary (subtotal : String) (shipping : String) (total : String) : CartScreen
  deriving DecidableEq

/-- The render of `CartPage` as the page computes it: `loading` first, then the
`cartItems.length === 0` branch, otherwise the order summary with
`getTotal().toFixed(2)`, `getTotal() >= 200 ? 'FREE' : '$15.00'` and
`(getTotal() + (getTotal() >= 200 ? 0 : 15)).toFixed(2)`. -/
def cartPage (s : CartState) : CartScreen :=
  if s.loading then .loading
  else if s.cartItems.length = 0 then .empty
  else .summary ("$" ++ toFixed2 (getTotalDouble s))
    (if getTotalDouble s ≥ 200 then "FREE" else "$15.00")
    ("$" ++ toFixed2 (numAdd (getTotalDouble s) (if getTotalDouble s ≥ 200 then 0 else 15)))

/-- `handleCheckout` of `CartPage.js`, as the alerts it raises: none for an
empty cart (early return), the checkout notice otherwise. -/
def handleCheckout (s : CartState) : List String :=
  if s.cartItems.length = 0 then []
  else ["Stripe checkout integration ready! Add your STRIPE_SECRET_KEY to backend/.env to enable payments."]

/-! ## Backend calls, storage and handler outcomes -/

/-- The outcome of an awaited backend call: the response data, or a failure
(network error or non-success status), on which the `await` throws. -/
inductive Response (α : Type) where
  | ok (data : α) : Response α
  | failed : Response α

/-- What a run of a handler leaves behind: the component state, the backend
paths requested, the `console.error` messages, the `alert` notices and the
delays of the timers set, each in order. -/
structure Outcome (σ : Type) where
  state : σ
  requests : List String
  logs : List String
  alerts : List String
  timeouts : List ℕ

/-- The browser's `localStorage`, as far as the pages use it: the entry under
the key `userId`. -/
structure Storage where
  userId : Option String
  deriving DecidableEq

/-- The expression `localStorage.getItem('userId') || fallback`: the stored
entry when there is one and it is truthy, the fallback otherwise. -/
def getItemOr (storage : Storage) (fallback : String) : String :=
  match storage.userId with
  | some id => if truthy id then id else fallback
  | none => fallback

/-! ## ShopPage handlers -/

/-- `clearFilters` of `ShopPage.js`. -/
def clearFilters (s : ShopState) : ShopState :=
  { s with selectedColor := "", priceRange := { min := "", max := "" } }

/-- The end of a valid floating-point number of the HTML standard after its
digits: nothing, or `e` or `E`, an optional sign and at least one digit. -/
def validExponent : List Char → Bool
  | [] => true
  | c :: rest =>
    (c = 'e' ∨ c = 'E') &&
      (match rest with
       | '-' :: ds => !ds.isEmpty && ds.all Char.isDigit
       | '+' :: ds => !ds.isEmpty && ds.all Char.isDigit
       | ds => !ds.isEmpty && ds.all Char.isDigit)

/-- A valid floating-point number of the HTML standard after its optional `-`:
digits, or digits with a point and more digits, or a point and digits; then
the optional exponent. -/
def validUnsigned (cs : List Char) : Bool :=
  match cs.dropWhile Char.isDigit with
  | '.' :: r =>
    !(r.takeWhile Char.isDigit).isEmpty && validExponent (r.dropWhile Char.isDigit)
  | r => !(cs.takeWhile Char.isDigit).isEmpty && validExponent r

/-- Whether a text is a valid floating-point number of the HTML standard. -/
def isValidFloatingPointNumber (text : String) : Bool :=
  match text.toList with
  | '-' :: cs => validUnsigned cs
  | cs => validUnsigned cs

/-- The `value` of an `<input type="number">` holding the given text (the
value sanitization of the HTML standard): the text when it is a valid
floating-point number, the empty string otherwise. -/
def numberInputValue (text : String) : String :=
  if isValidFloatingPointNumber text then text else ""

/-- The `onChange` of the Min input of `ShopPage.js`, a number input:
`setPriceRange({ ...priceRange, min: e.target.value })`. -/
def minInputChange (text : String) (s : ShopState) : ShopState :=
  { s with priceRange := { s.priceRange with min := numberInputValue text } }

/-- The `onChange` of the Max input of `ShopPage.js`, a number input:
`setPriceRange({ ...priceRange, max: e.target.value })`. -/
def maxInputChange (text : String) (s : ShopState) : ShopState :=
  { s with priceRange := { s.priceRange with max := numberInputValue text } }

/-- `fetchProducts` of `ShopPage.js`. -/
def ShopPage.fetchProducts (s : ShopState) (response : Response (List Product)) :
    Outcome ShopState :=
  match response with
  | .ok data =>
    { state := { s with products := data }, requests := ["/products"], logs := [], alerts := [],
      timeouts := [] }
  | .failed =>
    { state := s, requests := ["/products"], logs := ["Error fetching products:"], alerts := [],
      timeouts := [] }

/-- The spread of a `Set` built from a list, `[...new Set(xs)]`: the values
are added one by one, so each distinct value stays once, at the place of its
first occurrence. -/
def newSet (xs : List String) : List String :=
  xs.foldl (fun seen x => if x ∈ seen then seen else seen ++ [x]) []

/-- The list `colors` of `ShopPage.js`: `[...new Set(products.map(p => p.color))]`,
the options of the colour filter. -/
def colors (s : ShopState) : List String :=
  newSet (s.products.map (fun p => p.color))

/-- The `onClick` of a colour button of `ShopPage.js`:
`setSelectedColor(selectedColor === color ? '' : color)`. -/
def colorButtonClick (color : String) (s : ShopState) : ShopState :=
  { s with selectedColor := if s.selectedColor = color then "" else color }

/-! ## CartPage handlers -/

/-- `fetchCart` of `CartPage.js`: the cart of `localStorage.getItem('userId') ||
'guest'` is requested; `loading` is cleared in the `finally` block. -/
def fetchCart (s : CartState) (storage : Storage) (response : Response (List CartEntry)) :
    Outcome CartState :=
  let userId := getItemOr storage "guest"
  match response with
  | .ok data =>
    { state := { cartItems := data, loading := false }, requests := ["/cart/" ++ userId],
      logs := [], alerts := [], timeouts := [] }
  | .failed =>
    { state := { s with loading := false }, requests := ["/cart/" ++ userId],
      logs := ["Error fetching cart:"], alerts := [], timeouts := [] }

/-- `removeItem` of `CartPage.js`: the delete request, then on success a run of
`fetchCart`. -/
def removeItem (s : CartState) (storage : Storage) (itemId : String) (deleted : Response Unit)
    (refetched : Response (List CartEntry)) : Outcome CartState :=
  match deleted with
  | .ok _ =>
    let o := fetchCart s storage refetched
    { o with requests := ("/cart/" ++ itemId) :: o.requests }
  | .failed =>
    { state := s, requests := ["/cart/" ++ itemId], logs := ["Error removing item:"],
      alerts := [], timeouts := [] }

/-! ## ProductPage -/

/-- The component state of `ProductPage`. -/
structure ProductState where
  product : Option Product
  selectedSize : String
  selectedImage : ℕ
  added : Bool
  deriving DecidableEq

/-- `fetchProduct` of `ProductPage.js`, for the product id of the route. -/
def fetchProduct (s : ProductState) (id : String) (response : Response Product) :
    Outcome ProductState :=
  match response with
  | .ok data =>
    { state := { s with product := some data }, requests := ["/products/" ++ id], logs := [],
      alerts := [], timeouts := [] }
  | .failed =>
    { state := s, requests := ["/products/" ++ id], logs := ["Error fetching product:"],
      alerts := [], timeouts := [] }

/-- The `onClick` of a size button of `ProductPage.js`:
`isAvailable && setSelectedSize(sizeObj.size)` with
`isAvailable = sizeObj.stock > 0`. -/
def sizeButtonClick (sizeObj : Size) (s : ProductState) : ProductState :=
  if sizeObj.stock > 0 then { s with selectedSize := sizeObj.size } else s

/-- The body of the add-to-cart request. -/
structure AddRequest where
  user_id : String
  product_id : String
  size : String
  quantity : ℤ
  deriving DecidableEq

/-- What a run of `handleAddToCart` leaves behind: the component state, the
storage, the body of the add request if one was sent, the messages logged, the
notices alerted and the delays of the timers set. -/
structure AddToCartOutcome where
  state : ProductState
  storage : Storage
  request : Option AddRequest
  logs : List String
  alerts : List String
  timeouts : List ℕ
  deriving DecidableEq

/-- `handleAddToCart` of `ProductPage.js`. `randomSuffix` stands for
`Math.random().toString(36).substr(2, 9)`. With no product loaded the
evaluation of `product.id` throws inside the `try`, before the request. -/
def handleAddToCart (s : ProductState) (storage : Storage) (randomSuffix : String)
    (response : Response Unit) : AddToCartOutcome :=
  if !truthy s.selectedSize then
    { state := s, storage := storage, request := none, logs := [],
      alerts := ["Please select a size"], timeouts := [] }
  else
    let userId := getItemOr storage ("guest_" ++ randomSuffix)
    let stored : Storage := { userId := some userId }
    match s.product with
    | none =>
      { state := s, storage := stored, request := none, logs := ["Error adding to cart:"],
        alerts := ["Failed to add to cart"], timeouts := [] }
    | some product =>
      let body : AddRequest :=
        { user_id := userId, product_id := product.id, size := s.selectedSize, quantity := 1 }
      match response with
      | .ok _ =>
        { state := { s with added := true }, storage := stored, request := some body, logs := [],
          alerts := [], timeouts := [2000] }
      | .failed =>
        { state := s, storage := stored, request := some body, logs := ["Error adding to cart:"],
          alerts := ["Failed to add to cart"], timeouts := [] }

/-- The timer callback `() => setAdded(false)` set by `handleAddToCart`. -/
def addedTimeout (s : ProductState) : ProductState :=
  { s with added := false }

/-! ## HomePage -/

/-- The component state of `HomePage`. -/
structure HomeState where
  featuredProducts : List Product
  email : String
  subscribed : Bool
  deriving DecidableEq

/-- `fetchFeaturedProducts` of `HomePage.js`: `response.data.slice(0, 4)` is
stored. -/
def fetchFeaturedProducts (s : HomeState) (response : Response (List Product)) :
    Outcome HomeState :=
  match response with
  | .ok data =>
    { state := { s with featuredProducts := data.take 4 }, requests := ["/products?featured=true"],
      logs := [], alerts := [], timeouts := [] }
  | .failed =>
    { state := s, requests := ["/products?featured=true"],
      logs := ["Error fetching featured products:"], alerts := [], timeouts := [] }

/-- `handleSubscribe` of `HomePage.js`. -/
def handleSubscribe (s : HomeState) (response : Response Unit) : Outcome HomeState :=
  match response with
  | .ok _ =>
    { state := { s with subscribed := true, email := "" }, requests := ["/drops/subscribe"],
      logs := [], alerts := [], timeouts := [3000] }
  | .failed =>
    { state := s, requests := ["/drops/subscribe"], logs := ["Error subscribing:"], alerts := [],
      timeouts := [] }

/-! ## String built-ins used by the admin form -/

/-- The pieces of a character list between the occurrences of a separator,
as `String.prototype.split` with a one-character separator cuts them. -/
def splitChars (sep : Char) : List Char → List (List Char)
  | [] => [[]]
  | c :: cs =>
    if c = sep then [] :: splitChars sep cs
    else
      match splitChars sep cs with
      | [] => [[c]]
      | piece :: pieces => (c :: piece) :: pieces

/-- `String.prototype.split` with a one-character separator. -/
def split (s : String) (sep : Char) : List String :=
  (splitChars sep s.toList).map String.mk

/-- `String.prototype.trim` on a character list: white space and line
terminators are removed at both ends. -/
def trimChars (cs : List Char) : List Char :=
  ((cs.dropWhile isWhiteSpace).reverse.dropWhile isWhiteSpace).reverse

/-- `String.prototype.trim`. -/
def trim (s : String) : String := String.mk (trimChars s.toList)

/-- The value of a character as a digit of the given radix, if it is one. -/
def digitOfRadix (radix : ℕ) (c : Char) : Option ℕ :=
  let v : ℕ :=
    if c.isDigit then c.toNat - 48
    else if c.isLower then c.toNat - 87
    else if c.isUpper then c.toNat - 55
    else radix
  if v < radix then some v else none

/-- The built-in `parseInt` with one argument, which may be `undefined`
(`none`): leading white space is skipped, a sign and a `0x` or `0X` mark are
read, then the longest run of digits of the radix; the result `none` stands for
`NaN`. -/
def parseInt (string : Option String) : Option ℤ :=
  let input : String := string.getD "undefined"
  let cs := input.toList.dropWhile isWhiteSpace
  let signed : Bool × List Char :=
    match cs with
    | '-' :: r => (true, r)
    | '+' :: r => (false, r)
    | r => (false, r)
  let based : ℕ × List Char :=
    match signed.2 with
    | '0' :: 'x' :: r => (16, r)
    | '0' :: 'X' :: r => (16, r)
    | r => (10, r)
  let ds := based.2.takeWhile (fun c => (digitOfRadix based.1 c).isSome)
  if ds = [] then none
  else
    let magnitude : ℕ := ds.foldl (fun acc c => based.1 * acc + (digitOfRadix based.1 c).getD 0) 0
    some (if signed.1 then -(magnitude : ℤ) else (magnitude : ℤ))

/-- The expression `parseInt(stock) || 10`: the parsed integer unless it is
`NaN` or 0, which are falsy and give 10. -/
def parseIntOr10 (stock : Option String) : ℤ :=
  match parseInt stock with
  | none => 10
  | some n => if n = 0 then 10 else n

/-! ## AdminPage -/

/-- A subscriber as the backend returns it. -/
structure Subscriber where
  id : String
  email : String
  subscribed_at : String
  deriving DecidableEq

/-- The `formData` state of the admin form: every field but `featured` is the
text of an input. -/
structure FormData where
  name : String
  description : String
  price : String
  images : String
  color : String
  sizes : String
  featured : Bool
  deriving DecidableEq

/-- The component state of `AdminPage`. -/
structure AdminState where
  products : List Product
  subscribers : List Subscriber
  showAddForm : Bool
  formData : FormData
  deriving DecidableEq

/-- The body of the create-product request. -/
structure ProductData where
  name : String
  description : String
  price : JSNumber
  images : List String
  category : String
  color : String
  sizes : List Size
  featured : Bool
  deriving DecidableEq

/-- The callback mapped over the pieces of `formData.sizes` in `handleSubmit`:
`const [size, stock] = s.trim().split(':')`, then
`{ size: size.trim(), stock: parseInt(stock) || 10 }`. -/
def sizeEntry (s : String) : Size :=
  let parts := split (trim s) ':'
  let size : String := parts.headD ""
  let stock : Option String := parts[1]?
  { size := trim size, stock := parseIntOr10 stock }

/-- The `productData` object built by `handleSubmit` of `AdminPage.js`. -/
def productData (formData : FormData) : ProductData :=
  { name := formData.name,
    description := formData.description,
    price := parseFloat formData.price,
    images := (split formData.images ',').map trim,
    category := "sneakers",
    color := formData.color,
    sizes := (split formData.sizes ',').map sizeEntry,
    featured := formData.featured }

/-- The empty form that `handleSubmit` restores after a successful post. -/
def emptyForm : FormData :=
  { name := "", description := "", price := "", images := "", color := "", sizes := "",
    featured := false }

/-- `fetchProducts` of `AdminPage.js`. -/
def AdminPage.fetchProducts (s : AdminState) (response : Response (List Product)) :
    Outcome AdminState :=
  match response with
  | .ok data =>
    { state := { s with products := data }, requests := ["/products"], logs := [], alerts := [],
      timeouts := [] }
  | .failed =>
    { state := s, requests := ["/products"], logs := ["Error fetching products:"], alerts := [],
      timeouts := [] }

/-- `fetchSubscribers` of `AdminPage.js`. -/
def fetchSubscribers (s : AdminState) (response : Response (List Subscriber)) :
    Outcome AdminState :=
  match response with
  | .ok data =>
    { state := { s with subscribers := data }, requests := ["/drops/subscribers"], logs := [],
      alerts := [], timeouts := [] }
  | .failed =>
    { state := s, requests := ["/drops/subscribers"], logs := ["Error fetching subscribers:"],
      alerts := [], timeouts := [] }

/-- `handleSubmit` of `AdminPage.js`: the post of `productData formData`; on
success the form is closed and emptied, `fetchProducts` is run and the success
notice is alerted. -/
def handleSubmit (s : AdminState) (posted : Response Unit)
    (refetched : Response (List Product)) : Outcome AdminState :=
  match posted with
  | .ok _ =>
    let o := AdminPage.fetchProducts { s with showAddForm := false, formData := emptyForm } refetched
    { o with requests := "/products" :: o.requests,
             alerts := o.alerts ++ ["Product added successfully!"] }
  | .failed =>
    { state := s, requests := ["/products"], logs := ["Error adding product:"],
      alerts := ["Failed to add product"], timeouts := [] }

/-- `deleteProduct` of `AdminPage.js`; `confirmed` is the answer of
`window.confirm`. -/
def deleteProduct (s : AdminState) (id : String) (confirmed : Bool) (deleted : Response Unit)
    (refetched : Response (List Product)) : Outcome AdminState :=
  if !confirmed then
    { state := s, requests := [], logs := [], alerts := [], timeouts := [] }
  else
    match deleted with
    | .ok _ =>
      let o := AdminPage.fetchProducts s refetched
      { o with requests := ("/products/" ++ id) :: o.requests }
    | .failed =>
      { state := s, requests := ["/products/" ++ id], logs := ["Error deleting product:"],
        alerts := [], timeouts := [] }

/-! ## Example data -/

/-- A product with the given colour and price; the other fields are fixed. -/
def sampleProduct (color : String) (price : ℚ) : Product :=
  { id := "p", name := "Runner", description := "", price := price,
    images := ["a.png"], color := color, sizes := [{ size := "9", stock := 3 }],
    featured := false }

/-- A shop state over the given products and criteria. -/
def shopWith (products : List Product) (color min max : String) : ShopState :=
  { products := products, filteredProducts := [], selectedColor := color,
    priceRange := { min := min, max := max }, showFilters := false }

/-- A cart line of the given unit price and quantity. -/
def sampleLine (price : ℚ) (quantity : ℤ) : CartEntry :=
  { product := sampleProduct "black" price,
    cart_item := { id := "c", user_id := "guest", product_id := "p", size := "9",
                   quantity := quantity } }

/-! ## Catalog filter: properties -/

theorem truthy_iff (s : String) : truthy s = true ↔ s ≠ "" := by
  simp [truthy]

theorem truthy_empty : truthy "" = false := by
  simp [truthy]

theorem parseFloat_empty : parseFloat "" = .nan := by decide

theorem ge_nan (a : JSNumber) : JSNumber.ge a .nan = false := by
  cases a <;> rfl

theorem ge_num_num (a b : ℚ) : JSNumber.ge (.num a) (.num b) = true ↔ b ≤ a := by
  simp [JSNumber.ge]

/-- The three passes of `applyFilters` amount to one `filter` by the
conjunction of the criteria. -/
theorem applyFilters_eq_filter (s : ShopState) :
    (applyFilters s).filteredProducts = s.products.filter (satisfiesAll s) := by
  unfold applyFilters satisfiesAll colorOk minOk maxOk
  cases truthy s.selectedColor <;> cases truthy s.priceRange.min <;>
    cases truthy s.priceRange.max <;> simp [List.filter_filter, Bool.and_comm, Bool.and_assoc]

theorem mem_applyFilters (s : ShopState) (p : Product) :
    p ∈ (applyFilters s).filteredProducts ↔ p ∈ s.products ∧ satisfiesAll s p = true := by
  rw [applyFilters_eq_filter, List.mem_filter]

/-- C1. `applyFilters` keeps exactly the products that satisfy every set
criterion: the result is the input filtered by the conjunction of the set
predicates; a product is in the result iff it is in the product list and
passes the colour test if a colour is set, the `>=` test if a minimum is set
and the `<=` test if a maximum is set; and a product left out fails one. -/
theorem applyFilters_exact (s : ShopState) :
    (applyFilters s).filteredProducts = s.products.filter (satisfiesAll s) ∧
    (∀ p, p ∈ (applyFilters s).filteredProducts ↔
      p ∈ s.products ∧
      (s.selectedColor ≠ "" → toLowerCase p.color = toLowerCase s.selectedColor) ∧
      (s.priceRange.min ≠ "" →
        JSNumber.ge (.num p.price) (parseFloat s.priceRange.min) = true) ∧
      (s.priceRange.max ≠ "" →
        JSNumber.le (.num p.price) (parseFloat s.priceRange.max) = true)) ∧
    (∀ p, p ∈ s.products → p ∉ (applyFilters s).filteredProducts →
      satisfiesAll s p = false) := by
  refine ⟨applyFilters_eq_filter s, fun p => ?_, fun p hp hn => ?_⟩
  · rw [mem_applyFilters]
    simp only [satisfiesAll, colorOk, minOk, maxOk, truthy, Bool.and_eq_true, Bool.or_eq_true,
      Bool.not_eq_true', decide_eq_false_iff_not, decide_eq_true_eq, not_not, and_assoc]
    constructor
    · rintro ⟨hp, hc, hmin, hmax⟩
      exact ⟨hp, fun h => hc.resolve_left h, fun h => hmin.resolve_left h,
        fun h => hmax.resolve_left h⟩
    · rintro ⟨hp, hc, hmin, hmax⟩
      refine ⟨hp, ?_, ?_, ?_⟩
      · by_cases h : s.selectedColor = ""
        · exact Or.inl h
        · exact Or.inr (hc h)
      · by_cases h : s.priceRange.min = ""
        · exact Or.inl h
        · exact Or.inr (hmin h)
      · by_cases h : s.priceRange.max = ""
        · exact Or.inl h
        · exact Or.inr (hmax h)
  · rw [mem_applyFilters] at hn
    cases h : satisfiesAll s p
    · rfl
    · exact absurd ⟨hp, h⟩ hn

/-- C2. With no criterion set (`selectedColor` empty, both bounds empty)
`applyFilters` stores the product list itself: same elements, same order. -/
theorem applyFilters_no_criteria (products stale : List Product) (showFilters : Bool) :
    (applyFilters (ShopState.mk products stale "" (PriceRange.mk "" "") showFilters)).filteredProducts
      = products := by
  simp [applyFilters, truthy]

/-- C3. The result of `applyFilters` is a subsequence of the product list: its
elements come from the list, in the order they have there. -/
theorem applyFilters_sublist (s : ShopState) :
    List.Sublist (applyFilters s).filteredProducts s.products ∧
    (∀ p, p ∈ (applyFilters s).filteredProducts → p ∈ s.products) := by
  have h : List.Sublist (applyFilters s).filteredProducts s.products := by
    rw [applyFilters_eq_filter]
    exact List.filter_sublist _
  exact ⟨h, fun p hp => h.subset hp⟩

theorem satisfiesAll_no_color (s : ShopState) (p : Product) :
    satisfiesAll { s with selectedColor := "" } p
      = (minOk s.priceRange.min p && maxOk s.priceRange.max p) := by
  simp [satisfiesAll, colorOk, truthy]

theorem satisfiesAll_no_min (s : ShopState) (p : Product) :
    satisfiesAll { s with priceRange := { s.priceRange with min := "" } } p
      = (colorOk s.selectedColor p && maxOk s.priceRange.max p) := by
  simp [satisfiesAll, minOk, truthy]

theorem satisfiesAll_no_max (s : ShopState) (p : Product) :
    satisfiesAll { s with priceRange := { s.priceRange with max := "" } } p
      = (colorOk s.selectedColor p && minOk s.priceRange.min p) := by
  simp [satisfiesAll, maxOk, truthy]

theorem truthy_of_parseFloat_ne_nan (t : String) (h : parseFloat t ≠ .nan) :
    truthy t = true := by
  rw [truthy_iff]
  rintro rfl
  exact h parseFloat_empty

/-- C4. With a colour set, a product is retained iff its lower-cased colour
equals the lower-cased selected colour (whole strings) and it passes the price
criteria; with no price bound set, iff it is a product of the list whose
lower-cased colour equals the lower-cased selected colour. -/
theorem applyFilters_color (s : ShopState) (p : Product) (h : s.selectedColor ≠ "") :
    (p ∈ (applyFilters s).filteredProducts ↔
      toLowerCase p.color = toLowerCase s.selectedColor ∧
      p ∈ (applyFilters { s with selectedColor := "" }).filteredProducts) ∧
    (s.priceRange.min = "" → s.priceRange.max = "" →
      (p ∈ (applyFilters s).filteredProducts ↔
        p ∈ s.products ∧ toLowerCase p.color = toLowerCase s.selectedColor)) := by
  have hc : colorOk s.selectedColor p = decide (toLowerCase p.color = toLowerCase s.selectedColor) := by
    simp [colorOk, (truthy_iff _).2 h]
  constructor
  · rw [mem_applyFilters, mem_applyFilters, satisfiesAll_no_color]
    simp only [satisfiesAll, hc, Bool.and_eq_true, decide_eq_true_eq]
    tauto
  · intro hmin hmax
    rw [mem_applyFilters]
    simp [satisfiesAll, hc, minOk, maxOk, hmin, hmax, truthy]

/-- C5. The price bounds are inclusive. A product whose price equals the parsed
minimum (maximum) is retained exactly when it is retained with that bound
unset; in general a parsed minimum `m` keeps the products with `m ≤ price` and
a parsed maximum `m` those with `price ≤ m`. -/
theorem applyFilters_bounds_inclusive (s : ShopState) (p : Product) :
    (parseFloat s.priceRange.min = .num p.price →
      (p ∈ (applyFilters s).filteredProducts ↔
        p ∈ (applyFilters { s with priceRange := { s.priceRange with min := "" } }).filteredProducts)) ∧
    (parseFloat s.priceRange.max = .num p.price →
      (p ∈ (applyFilters s).filteredProducts ↔
        p ∈ (applyFilters { s with priceRange := { s.priceRange with max := "" } }).filteredProducts)) ∧
    (∀ m : ℚ, parseFloat s.priceRange.min = .num m →
      (p ∈ (applyFilters s).filteredProducts ↔ m ≤ p.price ∧
        p ∈ (applyFilters { s with priceRange := { s.priceRange with min := "" } }).filteredProducts)) ∧
    (∀ m : ℚ, parseFloat s.priceRange.max = .num m →
      (p ∈ (applyFilters s).filteredProducts ↔ p.price ≤ m ∧
        p ∈ (applyFilters { s with priceRange := { s.priceRange with max := "" } }).filteredProducts)) := by
  have hmin : ∀ m : ℚ, parseFloat s.priceRange.min = .num m →
      (p ∈ (applyFilters s).filteredProducts ↔ m ≤ p.price ∧
        p ∈ (applyFilters { s with priceRange := { s.priceRange with min := "" } }).filteredProducts) := by
    intro m hm
    have ht : truthy s.priceRange.min = true :=
      truthy_of_parseFloat_ne_nan _ (by rw [hm]; exact fun h => JSNumber.noConfusion h)
    rw [mem_applyFilters, mem_applyFilters, satisfiesAll_no_min]
    simp only [satisfiesAll, minOk, ht, hm, JSNumber.ge, Bool.and_eq_true, decide_eq_true_eq,
      Bool.not_true, Bool.false_or]
    tauto
  have hmax : ∀ m : ℚ, parseFloat s.priceRange.max = .num m →
      (p ∈ (applyFilters s).filteredProducts ↔ p.price ≤ m ∧
        p ∈ (applyFilters { s with priceRange := { s.priceRange with max := "" } }).filteredProducts) := by
    intro m hm
    have ht : truthy s.priceRange.max = true :=
      truthy_of_parseFloat_ne_nan _ (by rw [hm]; exact fun h => JSNumber.noConfusion h)
    rw [mem_applyFilters, mem_applyFilters, satisfiesAll_no_max]
    simp only [satisfiesAll, maxOk, ht, hm, JSNumber.le, JSNumber.ge, Bool.and_eq_true,
      decide_eq_true_eq, Bool.not_true, Bool.false_or]
    tauto
  refine ⟨fun h => ?_, fun h => ?_, hmin, hmax⟩
  · rw [hmin _ h]; simp
  · rw [hmax _ h]; simp

/-- C6. An empty bound does not constrain: with `priceRange.min` empty the
result is the product list filtered by the colour and maximum criteria only,
and with `priceRange.max` empty by the colour and minimum criteria only. -/
theorem applyFilters_unset_bound (products stale : List Product) (color bound : String)
    (showFilters : Bool) :
    (applyFilters (ShopState.mk products stale color (PriceRange.mk "" bound) showFilters)).filteredProducts
      = products.filter (fun p => colorOk color p && maxOk bound p) ∧
    (applyFilters (ShopState.mk products stale color (PriceRange.mk bound "") showFilters)).filteredProducts
      = products.filter (fun p => colorOk color p && minOk bound p) := by
  constructor
  · rw [applyFilters_eq_filter]
    congr 1
    funext p
    simp [satisfiesAll, minOk, truthy]
  · rw [applyFilters_eq_filter]
    congr 1
    funext p
    simp [satisfiesAll, maxOk, truthy]

theorem gt_false_of_between (x : ℚ) (a b : JSNumber)
    (h1 : JSNumber.ge (.num x) a = true) (h2 : JSNumber.ge b (.num x) = true) :
    JSNumber.gt a b = false := by
  cases a <;> cases b <;> simp_all [JSNumber.ge, JSNumber.gt]
  exact le_trans h1 h2

theorem gt_ne_nan (a b : JSNumber) (h : JSNumber.gt a b = true) : a ≠ .nan ∧ b ≠ .nan := by
  cases a <;> cases b <;> simp_all [JSNumber.gt]

/-- C7. With an inverted range (the parsed minimum is greater than the parsed
maximum, JavaScript `>`) `applyFilters` stores the empty list; the function is
total, so no error is raised. -/
theorem applyFilters_inverted_range (s : ShopState)
    (h : JSNumber.gt (parseFloat s.priceRange.min) (parseFloat s.priceRange.max) = true) :
    (applyFilters s).filteredProducts = [] := by
  obtain ⟨h1, h2⟩ := gt_ne_nan _ _ h
  have t1 := truthy_of_parseFloat_ne_nan _ h1
  have t2 := truthy_of_parseFloat_ne_nan _ h2
  rw [applyFilters_eq_filter, List.filter_eq_nil_iff]
  intro p _ hsat
  simp only [satisfiesAll, minOk, maxOk, t1, t2, JSNumber.le, Bool.and_eq_true, Bool.not_true,
    Bool.false_or] at hsat
  have := gt_false_of_between p.price _ _ hsat.1.2 hsat.2
  rw [h] at this
  exact Bool.noConfusion this

/-- On a state whose bound is a non-empty text that `parseFloat` reads as `NaN`
the comparison fails for every product and `applyFilters` stores the empty
list. The number inputs never store such a bound (`numberInputValue_cases`). -/
theorem applyFilters_unparsable_bound (s : ShopState)
    (h : (s.priceRange.min ≠ "" ∧ parseFloat s.priceRange.min = .nan) ∨
         (s.priceRange.max ≠ "" ∧ parseFloat s.priceRange.max = .nan)) :
    (applyFilters s).filteredProducts = [] := by
  rw [applyFilters_eq_filter, List.filter_eq_nil_iff]
  intro p _ hsat
  simp only [satisfiesAll, minOk, maxOk, JSNumber.le, Bool.and_eq_true, Bool.or_eq_true,
    Bool.not_eq_true'] at hsat
  rcases h with ⟨hne, hnan⟩ | ⟨hne, hnan⟩
  · rcases hsat.1.2 with ht | hge
    · rw [(truthy_iff _).2 hne] at ht
      exact Bool.noConfusion ht
    · rw [hnan, ge_nan] at hge
      exact Bool.noConfusion hge
  · rcases hsat.2 with ht | hge
    · rw [(truthy_iff _).2 hne] at ht
      exact Bool.noConfusion ht
    · rw [hnan] at hge
      simp [JSNumber.ge] at hge

/-- C4, at an instance: for the selected colour "black" the product coloured
"Black" is retained and the one coloured "blackout" is not. -/
theorem applyFilters_color_witness :
    (shopWith [sampleProduct "Black" 120, sampleProduct "blackout" 90] "black" "" "").selectedColor ≠ "" ∧
    (sampleProduct "Black" 120 ∈
      (applyFilters (shopWith [sampleProduct "Black" 120, sampleProduct "blackout" 90] "black" "" "")).filteredProducts) ∧
    (sampleProduct "blackout" 90 ∉
      (applyFilters (shopWith [sampleProduct "Black" 120, sampleProduct "blackout" 90] "black" "" "")).filteredProducts) :=
  ⟨by decide,
   ((applyFilters_color (shopWith [sampleProduct "Black" 120, sampleProduct "blackout" 90] "black" "" "")
      (sampleProduct "Black" 120) (by decide)).2 rfl rfl).2 ⟨by simp [shopWith], by decide⟩,
   fun h => absurd
     (((applyFilters_color (shopWith [sampleProduct "Black" 120, sampleProduct "blackout" 90] "black" "" "")
        (sampleProduct "blackout" 90) (by decide)).1.1 h).1) (by decide)⟩

/-- C5, at an instance: with both bounds "100" the product priced 100 is
retained. -/
theorem applyFilters_bounds_inclusive_witness :
    parseFloat (shopWith [sampleProduct "black" 100] "" "100" "100").priceRange.min = .num 100 ∧
    sampleProduct "black" 100 ∈
      (applyFilters (shopWith [sampleProduct "black" 100] "" "100" "100")).filteredProducts :=
  ⟨by decide!,
   ((applyFilters_bounds_inclusive (shopWith [sampleProduct "black" 100] "" "100" "100")
      (sampleProduct "black" 100)).1 (by decide!)).2 (by decide!)⟩

/-- C7, at an instance: minimum "100" and maximum "50" leave no product. -/
theorem applyFilters_inverted_range_witness :
    JSNumber.gt (parseFloat "100") (parseFloat "50") = true ∧
    (applyFilters (shopWith [sampleProduct "black" 75, sampleProduct "red" 100] "" "100" "50")).filteredProducts
      = [] :=
  ⟨by decide!,
   applyFilters_inverted_range
     (shopWith [sampleProduct "black" 75, sampleProduct "red" 100] "" "100" "50") (by decide!)⟩

/-! ## Cart pricing: properties -/

theorem foldl_add_eq (items : List CartEntry) (init : ℚ) :
    items.foldl (fun sum item => sum + item.product.price * (item.cart_item.quantity : ℚ)) init
      = init + (items.map (fun item => item.product.price * (item.cart_item.quantity : ℚ))).sum := by
  induction items generalizing init with
  | nil => simp
  | cons x xs ih => simp [List.foldl_cons, ih, add_assoc]

/-- Over exact arithmetic `getTotal` is the sum over the cart items of
`item.product.price * item.cart_item.quantity`; on the empty list it is 0. -/
theorem getTotal_eq_sum (s : CartState) :
    getTotal s
      = (s.cartItems.map (fun item => item.product.price * (item.cart_item.quantity : ℚ))).sum ∧
    getTotal { s with cartItems := [] } = 0 := by
  constructor
  · simp [getTotal, foldl_add_eq]
  · simp [getTotal]

/-- C10, refuted as stated: for the loaded empty cart the subtotal is 0, below
200, yet the page renders the empty-cart screen and no shipping row at all. -/
theorem cartPageView_empty_no_shipping :
    getTotal { cartItems := [], loading := false } < 200 ∧
    cartPageView { cartItems := [], loading := false } = .empty ∧
    (∀ subtotal total, cartPageView { cartItems := [], loading := false }
        ≠ .summary subtotal "$15.00" total) := by
  refine ⟨by simp [getTotal], by simp [cartPageView], fun a b => by simp [cartPageView]⟩

/-- C11, refuted as stated: the loaded empty cart has a subtotal (0), yet no
total is displayed for it: the page renders no order summary whatever. -/
theorem cartPageView_empty_no_total :
    getTotal (CartState.mk [] false) = 0 ∧
    (∀ subtotal shipping total,
      cartPageView (CartState.mk [] false) ≠ .summary subtotal shipping total) := by
  refine ⟨by simp [getTotal], fun a b c => by simp [cartPageView]⟩

/-- C11 (as amended). For every loaded, non-empty cart the order summary shows
the subtotal `getTotal`, and one fee, 0 when the subtotal is at least 200 and
15 otherwise, decides both rows: the Shipping row reads "FREE" for the fee 0
and "$15.00" for the fee 15, and the Total row is the subtotal plus that fee. -/
theorem cartPageView_total (s : CartState) (hl : s.loading = false) (hne : s.cartItems ≠ []) :
    ∃ fee : ℚ, fee = (if 200 ≤ getTotal s then 0 else 15) ∧
      cartPageView s
        = .summary (getTotal s) (if fee = 0 then "FREE" else "$15.00") (getTotal s + fee) := by
  have hlen : ¬ s.cartItems.length = 0 := by
    simpa [List.length_eq_zero] using hne
  refine ⟨_, rfl, ?_⟩
  by_cases h : 200 ≤ getTotal s
  · simp [cartPageView, hl, hlen, h]
  · simp [cartPageView, hl, hlen, h]

/-- C11 as amended, at an instance: one line of price 50 and quantity 1 has
subtotal 50, Shipping "$15.00" and total 65. -/
theorem cartPageView_total_witness :
    ((CartState.mk [sampleLine 50 1] false).loading = false ∧
      (CartState.mk [sampleLine 50 1] false).cartItems ≠ []) ∧
    cartPageView (CartState.mk [sampleLine 50 1] false) = .summary 50 "$15.00" 65 ∧
    (∃ fee : ℚ, fee = (if 200 ≤ getTotal (CartState.mk [sampleLine 50 1] false) then 0 else 15) ∧
      cartPageView (CartState.mk [sampleLine 50 1] false)
        = .summary (getTotal (CartState.mk [sampleLine 50 1] false))
            (if fee = 0 then "FREE" else "$15.00")
            (getTotal (CartState.mk [sampleLine 50 1] false) + fee)) :=
  ⟨⟨rfl, by decide⟩, by decide!,
   cartPageView_total (CartState.mk [sampleLine 50 1] false) rfl (by decide)⟩

/-- C12, refuted as stated: for the empty cart, loading or loaded, the page
does not show subtotal 0, shipping "$15.00" and total 15; once loaded it shows
the empty-cart screen, and checkout does nothing. -/
theorem cartPageView_empty_not_priced :
    cartPageView (CartState.mk [] false) = .empty ∧
    cartPageView (CartState.mk [] false) ≠ .summary 0 "$15.00" 15 ∧
    cartPageView (CartState.mk [] true) ≠ .summary 0 "$15.00" 15 ∧
    handleCheckout (CartState.mk [] false) = [] := by
  refine ⟨by simp [cartPageView], by simp [cartPageView], by simp [cartPageView], ?_⟩
  simp [handleCheckout]

/-- C12 (as amended). On the empty cart-line list `getTotal` is 0, for which
the threshold expression gives the fee 15 and the sum 15; the page does not
show them: it renders the loading screen or the empty-cart screen, never an
order summary, and `handleCheckout` returns without a notice. -/
theorem empty_cart_pricing (loading : Bool) :
    getTotal (CartState.mk [] loading) = 0 ∧
    (if getTotal (CartState.mk [] loading) ≥ 200 then (0 : ℚ) else 15) = 15 ∧
    getTotal (CartState.mk [] loading)
      + (if getTotal (CartState.mk [] loading) ≥ 200 then (0 : ℚ) else 15) = 15 ∧
    cartPageView (CartState.mk [] loading) = (if loading then .loading else .empty) ∧
    (∀ subtotal shipping total,
      cartPageView (CartState.mk [] loading) ≠ .summary subtotal shipping total) ∧
    handleCheckout (CartState.mk [] loading) = [] := by
  have h0 : getTotal (CartState.mk [] loading) = 0 := by simp [getTotal]
  refine ⟨h0, ?_, ?_, ?_, ?_, ?_⟩
  · rw [h0]; norm_num
  · rw [h0]; norm_num
  · cases loading <;> simp [cartPageView]
  · intro a b c
    cases loading <;> simp [cartPageView]
  · simp [handleCheckout]

/-! ## Page handlers: properties -/

/-- C13. A click on the button of a size whose stock is 0 or less leaves the
whole state, `selectedSize` included, unchanged; a click on one with positive
stock sets `selectedSize` to that size's label and nothing else. -/
theorem sizeButtonClick_spec (sizeObj : Size) (s : ProductState) :
    (sizeObj.stock ≤ 0 → sizeButtonClick sizeObj s = s) ∧
    (0 < sizeObj.stock →
      (sizeButtonClick sizeObj s).selectedSize = sizeObj.size ∧
      sizeButtonClick sizeObj s = { s with selectedSize := sizeObj.size }) := by
  constructor
  · intro h
    simp [sizeButtonClick, not_lt.2 h]
  · intro h
    simp [sizeButtonClick, h]

/-- C13, at two instances: with "9" selected, a click on size "10" of stock 0
keeps "9", and a click on size "11" of stock 4 selects "11". -/
theorem sizeButtonClick_spec_witness :
    (sizeButtonClick (Size.mk "10" 0) (ProductState.mk none "9" 0 false)).selectedSize = "9" ∧
    (sizeButtonClick (Size.mk "11" 4) (ProductState.mk none "9" 0 false)).selectedSize = "11" :=
  ⟨congrArg ProductState.selectedSize
      ((sizeButtonClick_spec (Size.mk "10" 0) (ProductState.mk none "9" 0 false)).1 (by decide)),
   ((sizeButtonClick_spec (Size.mk "11" 4) (ProductState.mk none "9" 0 false)).2 (by decide)).1⟩

/-- C14. From any state `clearFilters` leaves the colour and both bounds
empty and the product list as it was, and `applyFilters` run afterwards stores
the whole product list, unchanged. -/
theorem clearFilters_resets (s : ShopState) :
    (clearFilters s).selectedColor = "" ∧
    (clearFilters s).priceRange = PriceRange.mk "" "" ∧
    (clearFilters s).products = s.products ∧
    (applyFilters (clearFilters s)).filteredProducts = s.products := by
  refine ⟨rfl, rfl, rfl, ?_⟩
  simp [applyFilters, clearFilters, truthy]

theorem guest_ne_empty (suffix : String) : "guest_" ++ suffix ≠ "" := by
  intro h
  have hl := congrArg String.length h
  simp only [String.length_append] at hl
  have h6 : "guest_".length = 6 := by decide
  rw [h6] at hl
  have h0 : "".length = 0 := by decide
  omega

theorem getItemOr_truthy (storage : Storage) (fallback : String) (h : fallback ≠ "") :
    truthy (getItemOr storage fallback) = true := by
  unfold getItemOr
  cases hu : storage.userId with
  | none => simpa [truthy] using h
  | some id =>
    by_cases ht : truthy id = true
    · simp [ht]
    · simp only [ht]
      simpa [truthy] using h

theorem getItemOr_some (id fallback : String) (h : truthy id = true) :
    getItemOr (Storage.mk (some id)) fallback = id := by
  simp [getItemOr, h]

theorem getItemOr_stored (storage : Storage) (fallback id : String)
    (h : storage.userId = some id) (hne : id ≠ "") : getItemOr storage fallback = id := by
  simp [getItemOr, h, truthy, hne]

/-- C15. With no size selected `handleAddToCart` sends no request and leaves
the state (so `selectedSize` and `added`) unchanged. With a size selected, a
product loaded and a successful request it sets `added`, keeps `selectedSize`
and sets the 2000 ms timer; the timer callback clears `added` and keeps the
selected size, which is still a selected (non-empty) one. -/
theorem handleAddToCart_machine (s : ProductState) (storage : Storage) (randomSuffix : String)
    (response : Response Unit) :
    (s.selectedSize = "" →
      (handleAddToCart s storage randomSuffix response).request = none ∧
      (handleAddToCart s storage randomSuffix response).state = s) ∧
    (s.selectedSize ≠ "" → ∀ p, s.product = some p →
      (handleAddToCart s storage randomSuffix (Response.ok ())).request.isSome = true ∧
      (handleAddToCart s storage randomSuffix (Response.ok ())).state = { s with added := true } ∧
      (handleAddToCart s storage randomSuffix (Response.ok ())).timeouts = [2000] ∧
      (addedTimeout (handleAddToCart s storage randomSuffix (Response.ok ())).state).added = false ∧
      (addedTimeout (handleAddToCart s storage randomSuffix (Response.ok ())).state).selectedSize
        = s.selectedSize ∧
      (addedTimeout (handleAddToCart s storage randomSuffix (Response.ok ())).state).selectedSize
        ≠ "") ∧
    (∀ st : ProductState,
      (addedTimeout st).added = false ∧ (addedTimeout st).selectedSize = st.selectedSize) := by
  refine ⟨fun h => ?_, fun h p hp => ?_, fun st => ⟨rfl, rfl⟩⟩
  · simp [handleAddToCart, truthy, h]
  · have ht : truthy s.selectedSize = true := (truthy_iff _).2 h
    simp [handleAddToCart, ht, hp, addedTimeout, h]

/-- C15, at an instance: with size "9" selected and a product loaded, a
successful add sets `added` and keeps "9"; the timer callback then clears
`added` and keeps "9". -/
theorem handleAddToCart_machine_witness :
    (ProductState.mk (some (sampleProduct "black" 120)) "9" 0 false).selectedSize ≠ "" ∧
    (handleAddToCart (ProductState.mk (some (sampleProduct "black" 120)) "9" 0 false)
        (Storage.mk none) "k3x9" (Response.ok ())).state
      = ProductState.mk (some (sampleProduct "black" 120)) "9" 0 true ∧
    (addedTimeout (handleAddToCart (ProductState.mk (some (sampleProduct "black" 120)) "9" 0 false)
        (Storage.mk none) "k3x9" (Response.ok ())).state).selectedSize = "9" :=
  ⟨by decide,
   ((handleAddToCart_machine (ProductState.mk (some (sampleProduct "black" 120)) "9" 0 false)
      (Storage.mk none) "k3x9" (Response.ok ())).2.1 (by decide) _ rfl).2.1,
   ((handleAddToCart_machine (ProductState.mk (some (sampleProduct "black" 120)) "9" 0 false)
      (Storage.mk none) "k3x9" (Response.ok ())).2.1 (by decide) _ rfl).2.2.2.2.1⟩

/-- C16, refuted as stated: a failed product fetch on the shop page is logged
but raises no notice, and so is a failed removal of a cart line. -/
theorem failure_without_notice :
    (ShopPage.fetchProducts (shopWith [] "" "" "") Response.failed).logs
      = ["Error fetching products:"] ∧
    (ShopPage.fetchProducts (shopWith [] "" "" "") Response.failed).alerts = [] ∧
    (removeItem (CartState.mk [sampleLine 50 1] false) (Storage.mk none) "c" Response.failed
        Response.failed).logs = ["Error removing item:"] ∧
    (removeItem (CartState.mk [sampleLine 50 1] false) (Storage.mk none) "c" Response.failed
        Response.failed).alerts = [] :=
  ⟨rfl, rfl, rfl, rfl⟩

/-- C16 (as amended). A failed backend call is caught and logged by every
handler, which leaves the state as it was (`fetchCart` only clears `loading`);
`handleAddToCart` and `handleSubmit` also raise a generic failure notice; the
list and detail fetches raise none. -/
theorem failure_caught_and_logged (shop : ShopState) (cart : CartState) (storage : Storage)
    (page : ProductState) (home : HomeState) (admin : AdminState) (id suffix : String)
    (refetchedCart : Response (List CartEntry))
    (refetched : Response (List Product)) :
    (page.selectedSize ≠ "" →
      (handleAddToCart page storage suffix Response.failed).logs = ["Error adding to cart:"] ∧
      (handleAddToCart page storage suffix Response.failed).alerts = ["Failed to add to cart"] ∧
      (handleAddToCart page storage suffix Response.failed).state = page) ∧
    ((handleSubmit admin Response.failed refetched).logs = ["Error adding product:"] ∧
      (handleSubmit admin Response.failed refetched).alerts = ["Failed to add product"] ∧
      (handleSubmit admin Response.failed refetched).state = admin) ∧
    ((removeItem cart storage id Response.failed refetchedCart).logs = ["Error removing item:"] ∧
      (removeItem cart storage id Response.failed refetchedCart).state = cart) ∧
    ((deleteProduct admin id true Response.failed refetched).logs = ["Error deleting product:"] ∧
      (deleteProduct admin id true Response.failed refetched).state = admin) ∧
    ((handleSubscribe home Response.failed).logs = ["Error subscribing:"] ∧
      (handleSubscribe home Response.failed).state = home) ∧
    ((ShopPage.fetchProducts shop Response.failed).logs = ["Error fetching products:"] ∧
      (ShopPage.fetchProducts shop Response.failed).alerts = [] ∧
      (ShopPage.fetchProducts shop Response.failed).state = shop) ∧
    ((AdminPage.fetchProducts admin Response.failed).logs = ["Error fetching products:"] ∧
      (AdminPage.fetchProducts admin Response.failed).alerts = [] ∧
      (AdminPage.fetchProducts admin Response.failed).state = admin) ∧
    ((fetchSubscribers admin Response.failed).logs = ["Error fetching subscribers:"] ∧
      (fetchSubscribers admin Response.failed).alerts = [] ∧
      (fetchSubscribers admin Response.failed).state = admin) ∧
    ((fetchCart cart storage Response.failed).logs = ["Error fetching cart:"] ∧
      (fetchCart cart storage Response.failed).alerts = [] ∧
      (fetchCart cart storage Response.failed).state = { cart with loading := false }) ∧
    ((fetchProduct page id Response.failed).logs = ["Error fetching product:"] ∧
      (fetchProduct page id Response.failed).alerts = [] ∧
      (fetchProduct page id Response.failed).state = page) ∧
    ((fetchFeaturedProducts home Response.failed).logs = ["Error fetching featured products:"] ∧
      (fetchFeaturedProducts home Response.failed).alerts = [] ∧
      (fetchFeaturedProducts home Response.failed).state = home) := by
  refine ⟨?_, ⟨rfl, rfl, rfl⟩, ⟨rfl, rfl⟩, ⟨rfl, rfl⟩, ⟨rfl, rfl⟩, ⟨rfl, rfl, rfl⟩, ⟨rfl, rfl, rfl⟩,
    ⟨rfl, rfl, rfl⟩, ⟨rfl, rfl, rfl⟩, ⟨rfl, rfl, rfl⟩, ⟨rfl, rfl, rfl⟩⟩
  intro hs
  have ht : truthy page.selectedSize = true := (truthy_iff _).2 hs
  cases hp : page.product <;> simp [handleAddToCart, ht, hp]

/-- C16 as amended, at an instance: with size "9" selected a failed add is
logged and answered by the notice "Failed to add to cart". -/
theorem failure_caught_and_logged_witness :
    (ProductState.mk (some (sampleProduct "black" 120)) "9" 0 false).selectedSize ≠ "" ∧
    (handleAddToCart (ProductState.mk (some (sampleProduct "black" 120)) "9" 0 false)
        (Storage.mk none) "k3x9" Response.failed).logs = ["Error adding to cart:"] ∧
    (handleAddToCart (ProductState.mk (some (sampleProduct "black" 120)) "9" 0 false)
        (Storage.mk none) "k3x9" Response.failed).alerts = ["Failed to add to cart"] :=
  ⟨by decide,
   ((failure_caught_and_logged (shopWith [] "" "" "") (CartState.mk [] false) (Storage.mk none)
      (ProductState.mk (some (sampleProduct "black" 120)) "9" 0 false)
      (HomeState.mk [] "" false) (AdminState.mk [] [] false emptyForm) "c" "k3x9"
      Response.failed Response.failed).1 (by decide)).1,
   ((failure_caught_and_logged (shopWith [] "" "" "") (CartState.mk [] false) (Storage.mk none)
      (ProductState.mk (some (sampleProduct "black" 120)) "9" 0 false)
      (HomeState.mk [] "" false) (AdminState.mk [] [] false emptyForm) "c" "k3x9"
      Response.failed Response.failed).1 (by decide)).2.1⟩

/-- C17. A successful fetch stores exactly the list of the response, whatever
list was held before; a failed fetch leaves the held list as it was. -/
theorem fetch_replaces (shop : ShopState) (admin : AdminState) (cart : CartState)
    (storage : Storage) (products : List Product) (subscribers : List Subscriber)
    (items : List CartEntry) :
    ((ShopPage.fetchProducts shop (Response.ok products)).state.products = products ∧
      (ShopPage.fetchProducts shop Response.failed).state.products = shop.products) ∧
    ((AdminPage.fetchProducts admin (Response.ok products)).state.products = products ∧
      (AdminPage.fetchProducts admin Response.failed).state.products = admin.products) ∧
    ((fetchSubscribers admin (Response.ok subscribers)).state.subscribers = subscribers ∧
      (fetchSubscribers admin Response.failed).state.subscribers = admin.subscribers) ∧
    ((fetchCart cart storage (Response.ok items)).state.cartItems = items ∧
      (fetchCart cart storage Response.failed).state.cartItems = cart.cartItems) :=
  ⟨⟨rfl, rfl⟩, ⟨rfl, rfl⟩, ⟨rfl, rfl⟩, ⟨rfl, rfl⟩⟩

/-- C18. When `handleAddToCart` reaches the add request (a size is selected
and a product is loaded), whether the request then succeeds or fails: the id
stored under `userId` afterwards is the `user_id` of the request, and it is not
empty; a (non-empty) id stored before is the one sent, and the storage is left
as it was; and a later `fetchCart` requests the cart of that id. -/
theorem userId_scoping (s : ProductState) (storage : Storage) (randomSuffix : String)
    (response : Response Unit) (p : Product) (hs : s.selectedSize ≠ "")
    (hp : s.product = some p) :
    ∃ body : AddRequest,
      (handleAddToCart s storage randomSuffix response).request = some body ∧
      (handleAddToCart s storage randomSuffix response).storage.userId = some body.user_id ∧
      body.user_id ≠ "" ∧
      (∀ id, storage.userId = some id → id ≠ "" →
        body.user_id = id ∧ (handleAddToCart s storage randomSuffix response).storage = storage) ∧
      (∀ (cart : CartState) (fetched : Response (List CartEntry)),
        (fetchCart cart (handleAddToCart s storage randomSuffix response).storage fetched).requests
          = ["/cart/" ++ body.user_id]) := by
  have ht : truthy s.selectedSize = true := (truthy_iff _).2 hs
  have hg := getItemOr_truthy storage ("guest_" ++ randomSuffix) (guest_ne_empty randomSuffix)
  refine ⟨⟨getItemOr storage ("guest_" ++ randomSuffix), p.id, s.selectedSize, 1⟩,
    ?_, ?_, ?_, ?_, ?_⟩
  · cases response <;> simp [handleAddToCart, ht, hp]
  · cases response <;> simp [handleAddToCart, ht, hp]
  · exact (truthy_iff _).1 hg
  · intro id hid hne
    have hid2 := getItemOr_stored storage ("guest_" ++ randomSuffix) id hid hne
    refine ⟨hid2, ?_⟩
    cases storage with
    | mk u =>
      simp only at hid
      subst hid
      cases response <;> simp [handleAddToCart, ht, hp, hid2]
  · intro cart fetched
    have hst : (handleAddToCart s storage randomSuffix response).storage
        = Storage.mk (some (getItemOr storage ("guest_" ++ randomSuffix))) := by
      cases response <;> simp [handleAddToCart, ht, hp]
    rw [hst]
    cases fetched <;> simp [fetchCart, getItemOr_some _ _ hg]

/-- C18, at two instances: with nothing stored the generated id "guest_k3x9"
is sent and stored; with "guest_ab12" stored that id is sent and kept. -/
theorem userId_scoping_witness :
    ((ProductState.mk (some (sampleProduct "black" 120)) "9" 0 false).selectedSize ≠ "") ∧
    (∃ body : AddRequest,
      (handleAddToCart (ProductState.mk (some (sampleProduct "black" 120)) "9" 0 false)
        (Storage.mk (some "guest_ab12")) "k3x9" Response.failed).request = some body ∧
      (handleAddToCart (ProductState.mk (some (sampleProduct "black" 120)) "9" 0 false)
        (Storage.mk (some "guest_ab12")) "k3x9" Response.failed).storage.userId
          = some body.user_id ∧
      body.user_id ≠ "" ∧
      (∀ id, (Storage.mk (some "guest_ab12")).userId = some id → id ≠ "" →
        body.user_id = id ∧
        (handleAddToCart (ProductState.mk (some (sampleProduct "black" 120)) "9" 0 false)
          (Storage.mk (some "guest_ab12")) "k3x9" Response.failed).storage
            = Storage.mk (some "guest_ab12")) ∧
      (∀ (cart : CartState) (fetched : Response (List CartEntry)),
        (fetchCart cart
          (handleAddToCart (ProductState.mk (some (sampleProduct "black" 120)) "9" 0 false)
            (Storage.mk (some "guest_ab12")) "k3x9" Response.failed).storage fetched).requests
          = ["/cart/" ++ body.user_id])) ∧
    (handleAddToCart (ProductState.mk (some (sampleProduct "black" 120)) "9" 0 false)
        (Storage.mk none) "k3x9" (Response.ok ())).storage = Storage.mk (some "guest_k3x9") ∧
    (handleAddToCart (ProductState.mk (some (sampleProduct "black" 120)) "9" 0 false)
        (Storage.mk (some "guest_ab12")) "k3x9" (Response.ok ())).request
      = some (AddRequest.mk "guest_ab12" "p" "9" 1) :=
  ⟨by decide,
   userId_scoping (ProductState.mk (some (sampleProduct "black" 120)) "9" 0 false)
     (Storage.mk (some "guest_ab12")) "k3x9" Response.failed (sampleProduct "black" 120)
     (by decide) rfl,
   by decide, by decide⟩

/-! ## Admin form: properties -/

theorem splitChars_ne_nil (sep : Char) (cs : List Char) : splitChars sep cs ≠ [] := by
  cases cs with
  | nil => simp [splitChars]
  | cons c cs =>
    unfold splitChars
    by_cases h : c = sep
    · simp [h]
    · simp only [h, if_false]
      cases splitChars sep cs <;> simp

theorem intercalate_splitChars (sep : Char) (cs : List Char) :
    List.intercalate [sep] (splitChars sep cs) = cs := by
  induction cs with
  | nil => simp [splitChars, List.intercalate]
  | cons c cs ih =>
    unfold splitChars
    have hne := splitChars_ne_nil sep cs
    by_cases h : c = sep
    · simp only [h, if_true]
      cases hs : splitChars sep cs with
      | nil => exact absurd hs hne
      | cons piece pieces =>
        rw [hs] at ih
        simp only [List.intercalate] at ih ⊢
        simp [List.intersperse, ih]
    · simp only [h, if_false]
      cases hs : splitChars sep cs with
      | nil => exact absurd hs hne
      | cons piece pieces =>
        rw [hs] at ih
        simp only [List.intercalate] at ih ⊢
        cases pieces with
        | nil => simpa [List.intersperse] using ih
        | cons q qs =>
          simp only [List.intersperse, List.flatten_cons, List.cons_append] at ih ⊢
          rw [ih]

theorem sep_not_mem_splitChars (sep : Char) (cs : List Char) :
    ∀ piece ∈ splitChars sep cs, sep ∉ piece := by
  induction cs with
  | nil => simp [splitChars]
  | cons c cs ih =>
    unfold splitChars
    by_cases h : c = sep
    · simp only [h, if_true]
      intro piece hp
      rcases List.mem_cons.1 hp with rfl | hp
      · simp
      · exact ih piece hp
    · simp only [h, if_false]
      cases hs : splitChars sep cs with
      | nil => simp [h, Ne.symm h]
      | cons piece pieces =>
        rw [hs] at ih
        intro q hq
        rcases List.mem_cons.1 hq with rfl | hq
        · intro hmem
          rcases List.mem_cons.1 hmem with hc | hc
          · exact h hc.symm
          · exact ih piece (List.mem_cons_self _ _) hc
        · exact ih q (List.mem_cons_of_mem _ hq)

theorem length_splitChars (sep : Char) (cs : List Char) :
    (splitChars sep cs).length = cs.count sep + 1 := by
  induction cs with
  | nil => simp [splitChars]
  | cons c cs ih =>
    unfold splitChars
    by_cases h : c = sep
    · simp [h, ih]
    · simp only [h, if_false]
      have hc : (c :: cs).count sep = cs.count sep := by
        simp [List.count_cons, h]
      rw [hc, ← ih]
      cases hs : splitChars sep cs with
      | nil => exact absurd hs (splitChars_ne_nil sep cs)
      | cons piece pieces => simp

theorem getLast?_dropWhile (p : Char → Bool) (l : List Char) (h : l.dropWhile p ≠ []) :
    (l.dropWhile p).getLast? = l.getLast? := by
  conv_rhs => rw [← List.takeWhile_append_dropWhile p l]
  rw [List.getLast?_append_of_ne_nil _ h]

theorem head?_dropWhile_false (p : Char → Bool) (l : List Char) (c : Char)
    (h : (l.dropWhile p).head? = some c) : p c = false := by
  have := List.head?_dropWhile_not p l
  rw [h] at this
  exact this

theorem trimChars_spec (cs : List Char) :
    ∃ pre post, cs = pre ++ trimChars cs ++ post ∧
      (∀ c ∈ pre, isWhiteSpace c = true) ∧ (∀ c ∈ post, isWhiteSpace c = true) ∧
      (∀ c, (trimChars cs).head? = some c → isWhiteSpace c = false) ∧
      (∀ c, (trimChars cs).getLast? = some c → isWhiteSpace c = false) := by
  refine ⟨cs.takeWhile isWhiteSpace,
    (((cs.dropWhile isWhiteSpace).reverse).takeWhile isWhiteSpace).reverse, ?_, ?_, ?_, ?_, ?_⟩
  · have h1 := List.takeWhile_append_dropWhile isWhiteSpace cs
    have h2 := List.takeWhile_append_dropWhile isWhiteSpace (cs.dropWhile isWhiteSpace).reverse
    have h3 := congrArg List.reverse h2
    rw [List.reverse_append, List.reverse_reverse] at h3
    unfold trimChars
    rw [List.append_assoc, h3, h1]
  · intro c hc
    exact (List.mem_takeWhile_imp hc)
  · intro c hc
    exact (List.mem_takeWhile_imp (List.mem_reverse.1 hc))
  · intro c hc
    unfold trimChars at hc
    rw [List.head?_reverse] at hc
    by_cases hne : ((cs.dropWhile isWhiteSpace).reverse).dropWhile isWhiteSpace = []
    · rw [hne] at hc
      exact absurd hc (by simp)
    · rw [getLast?_dropWhile _ _ hne, List.getLast?_reverse] at hc
      exact head?_dropWhile_false _ _ _ hc
  · intro c hc
    unfold trimChars at hc
    rw [List.getLast?_reverse] at hc
    exact head?_dropWhile_false _ _ _ hc

/-- C19, at the failing input. The stock "0" parses to 0, which
`parseInt(stock) || 10` replaces by 10: the entry "9:0" yields stock 10, alone
or inside a list; entries with a positive stock, such as those of the form's
placeholder, keep their stock. -/
theorem sizes_zero_stock_becomes_ten :
    parseInt (some "0") = some 0 ∧
    parseIntOr10 (some "0") = 10 ∧
    sizeEntry "9:0" = Size.mk "9" 10 ∧
    (productData { emptyForm with sizes := "8:10, 9:0" }).sizes
      = [Size.mk "8" 10, Size.mk "9" 10] ∧
    (productData { emptyForm with sizes := "8:10, 9:15, 10:20, 11:12, 12:8" }).sizes
      = [Size.mk "8" 10, Size.mk "9" 15, Size.mk "10" 20, Size.mk "11" 12, Size.mk "12" 8] :=
  ⟨by decide, by decide, by decide, by decide, by decide⟩

/-- C20. The images of the payload are the pieces that `split(',')` cuts out of
the input, each trimmed, in order. The list is not empty: it has one piece
more than the input has commas. The pieces joined by commas give back the
input and none holds a comma; and trimming a piece removes a run of white space
at each end, leaving a text that neither starts nor ends with white space. -/
theorem productData_images (formData : FormData) :
    (productData formData).images = (split formData.images ',').map trim ∧
    (productData formData).images ≠ [] ∧
    (productData formData).images.length = formData.images.toList.count ',' + 1 ∧
    List.intercalate [','] ((split formData.images ',').map String.toList)
      = formData.images.toList ∧
    (∀ piece ∈ split formData.images ',', ',' ∉ piece.toList) ∧
    (∀ piece : String, ∃ pre post, piece.toList = pre ++ (trim piece).toList ++ post ∧
      (∀ c ∈ pre, isWhiteSpace c = true) ∧ (∀ c ∈ post, isWhiteSpace c = true) ∧
      (∀ c, (trim piece).toList.head? = some c → isWhiteSpace c = false) ∧
      (∀ c, (trim piece).toList.getLast? = some c → isWhiteSpace c = false)) := by
  have hmap : (split formData.images ',').map String.toList
      = splitChars ',' formData.images.toList := by
    simp [split, List.map_map, Function.comp_def]
  refine ⟨rfl, ?_, ?_, ?_, ?_, ?_⟩
  · intro h
    have hl := congrArg List.length h
    simp [productData, split, length_splitChars] at hl
  · simp [productData, split, length_splitChars]
  · rw [hmap, intercalate_splitChars]
  · intro piece hp
    have : piece.toList ∈ (split formData.images ',').map String.toList :=
      List.mem_map_of_mem _ hp
    rw [hmap] at this
    exact sep_not_mem_splitChars _ _ _ this
  · intro piece
    exact trimChars_spec piece.toList

/-! ## Further properties of the filter, the subtotal and the landing page -/

theorem mem_foldl_newSet (xs seen : List String) (x : String) :
    x ∈ xs.foldl (fun seen x => if x ∈ seen then seen else seen ++ [x]) seen
      ↔ x ∈ seen ∨ x ∈ xs := by
  induction xs generalizing seen with
  | nil => simp
  | cons y ys ih =>
    rw [List.foldl_cons, ih]
    by_cases hy : y ∈ seen
    · simp only [hy, if_true, List.mem_cons]
      constructor
      · rintro (h | h)
        · exact Or.inl h
        · exact Or.inr (Or.inr h)
      · rintro (h | h | h)
        · exact Or.inl h
        · exact Or.inl (h ▸ hy)
        · exact Or.inr h
    · simp only [hy, if_false, List.mem_append, List.mem_singleton, List.mem_cons]
      tauto

theorem nodup_foldl_newSet (xs seen : List String) (h : seen.Nodup) :
    (xs.foldl (fun seen x => if x ∈ seen then seen else seen ++ [x]) seen).Nodup := by
  induction xs generalizing seen with
  | nil => simpa using h
  | cons y ys ih =>
    rw [List.foldl_cons]
    apply ih
    by_cases hy : y ∈ seen
    · simpa [hy] using h
    · simp only [hy, if_false]
      rw [List.nodup_append]
      refine ⟨h, List.nodup_singleton y, ?_⟩
      intro a ha hb
      rw [List.mem_singleton] at hb
      exact hy (hb ▸ ha)

theorem mem_colors (s : ShopState) (c : String) :
    c ∈ colors s ↔ ∃ p ∈ s.products, p.color = c := by
  simp [colors, newSet, mem_foldl_newSet]

theorem nodup_colors (s : ShopState) : (colors s).Nodup :=
  nodup_foldl_newSet _ [] List.nodup_nil

/-- C21. A colour offered as a filter option is the colour of some product
(and the options hold no colour twice). With that colour selected and no price
bound, `applyFilters` stores a non-empty list which holds every product of that
very colour, and every product whose colour differs from it only in letter
case. A click on the option's button, when it is not the selected one, selects
it. -/
theorem color_option_matches (s : ShopState) (c : String) (hc : c ∈ colors s) :
    (∃ p ∈ s.products, p.color = c) ∧
    (colors s).Nodup ∧
    (applyFilters { s with selectedColor := c, priceRange := PriceRange.mk "" "" }).filteredProducts ≠ [] ∧
    (∀ p ∈ s.products, p.color = c →
      p ∈ (applyFilters { s with selectedColor := c, priceRange := PriceRange.mk "" "" }).filteredProducts) ∧
    (∀ p ∈ s.products, toLowerCase p.color = toLowerCase c →
      p ∈ (applyFilters { s with selectedColor := c, priceRange := PriceRange.mk "" "" }).filteredProducts) ∧
    (s.selectedColor ≠ c → colorButtonClick c s = { s with selectedColor := c }) := by
  have hex := (mem_colors s c).1 hc
  have hlow : ∀ p ∈ s.products, toLowerCase p.color = toLowerCase c →
      p ∈ (applyFilters { s with selectedColor := c, priceRange := PriceRange.mk "" "" }).filteredProducts := by
    intro p hp hl
    rw [mem_applyFilters]
    refine ⟨hp, ?_⟩
    simp [satisfiesAll, colorOk, minOk, maxOk, truthy, hl]
  refine ⟨hex, nodup_colors s, ?_, ?_, hlow, ?_⟩
  · obtain ⟨p, hp, hpc⟩ := hex
    exact List.ne_nil_of_mem (hlow p hp (by rw [hpc]))
  · intro p hp hpc
    exact hlow p hp (by rw [hpc])
  · intro hne
    simp [colorButtonClick, hne]

/-- C21, at an instance: over products coloured "Black" and "black" the option
"Black" is offered, and selecting it stores both products. -/
theorem color_option_matches_witness :
    "Black" ∈ colors (shopWith [sampleProduct "Black" 120, sampleProduct "black" 90] "" "" "") ∧
    colors (shopWith [sampleProduct "Black" 120, sampleProduct "black" 90, sampleProduct "Black" 70] "" "" "")
      = ["Black", "black"] ∧
    sampleProduct "black" 90 ∈
      (applyFilters { shopWith [sampleProduct "Black" 120, sampleProduct "black" 90] "" "" "" with selectedColor := "Black", priceRange := PriceRange.mk "" "" }).filteredProducts :=
  ⟨by decide, by decide,
   (color_option_matches (shopWith [sampleProduct "Black" 120, sampleProduct "black" 90] "" "" "")
      "Black" (by decide)).2.2.2.2.1 (sampleProduct "black" 90) (by simp [shopWith]) (by decide)⟩

/-- C22. `applyFilters` is idempotent: run over its own result as the product
list, with the same criteria, it stores that result again; and run a second
time on the state it returned, it returns the same state. -/
theorem applyFilters_idempotent (s : ShopState) :
    (applyFilters { s with products := (applyFilters s).filteredProducts }).filteredProducts
      = (applyFilters s).filteredProducts ∧
    applyFilters (applyFilters s) = applyFilters s := by
  constructor
  · rw [applyFilters_eq_filter, applyFilters_eq_filter]
    have hsat : satisfiesAll { s with products := List.filter (satisfiesAll s) s.products }
        = satisfiesAll s := by
      funext p
      rfl
    simp only [hsat, List.filter_filter, Bool.and_self]
  · rfl

/-- C23. `getTotal` is additive over concatenation, `getTotal (a ++ b) =
getTotal a + getTotal b`, and does not depend on the order of the items: it is
the same on any permutation of the list, in particular on `b ++ a`. -/
theorem getTotal_additive (a b : List CartEntry) (loading : Bool) :
    getTotal (CartState.mk (a ++ b) loading)
      = getTotal (CartState.mk a loading) + getTotal (CartState.mk b loading) ∧
    (a.Perm b → getTotal (CartState.mk a loading) = getTotal (CartState.mk b loading)) ∧
    getTotal (CartState.mk (b ++ a) loading) = getTotal (CartState.mk (a ++ b) loading) := by
  refine ⟨?_, fun hperm => ?_, ?_⟩
  · simp [getTotal, foldl_add_eq]
  · simp only [getTotal, foldl_add_eq, zero_add]
    exact (hperm.map _).sum_eq
  · simp only [getTotal, foldl_add_eq, zero_add, List.map_append, List.sum_append]
    exact add_comm _ _

/-- C23, at an instance: two lines in either order have the same subtotal. -/
theorem getTotal_additive_witness :
    [sampleLine 50 1, sampleLine 100 2].Perm [sampleLine 100 2, sampleLine 50 1] ∧
    getTotal (CartState.mk [sampleLine 50 1, sampleLine 100 2] false)
      = getTotal (CartState.mk [sampleLine 100 2, sampleLine 50 1] false) ∧
    getTotal (CartState.mk [sampleLine 50 1, sampleLine 100 2] false) = 250 :=
  ⟨List.Perm.swap _ _ _,
   (getTotal_additive [sampleLine 50 1, sampleLine 100 2] [sampleLine 100 2, sampleLine 50 1]
      false).2.1 (List.Perm.swap _ _ _),
   by decide!⟩

/-- C24. On a response of `n` products `fetchFeaturedProducts` stores its
first `min 4 n` elements in response order: the stored list is `data.take 4`,
has length `min 4 n`, is an initial segment of the response and agrees with it
at every index below `min 4 n`. Hence at most 4 products are held, and a state
holding at most 4 holds at most 4 after any fetch, failed ones included. -/
theorem fetchFeaturedProducts_first_four (s : HomeState) (data : List Product) :
    (fetchFeaturedProducts s (Response.ok data)).state.featuredProducts = data.take 4 ∧
    (fetchFeaturedProducts s (Response.ok data)).state.featuredProducts.length
      = min 4 data.length ∧
    (fetchFeaturedProducts s (Response.ok data)).state.featuredProducts.length ≤ 4 ∧
    (∃ rest, data = (fetchFeaturedProducts s (Response.ok data)).state.featuredProducts ++ rest) ∧
    (∀ i, i < min 4 data.length →
      (fetchFeaturedProducts s (Response.ok data)).state.featuredProducts[i]? = data[i]?) ∧
    (s.featuredProducts.length ≤ 4 → ∀ response,
      (fetchFeaturedProducts s response).state.featuredProducts.length ≤ 4) := by
  have hst : (fetchFeaturedProducts s (Response.ok data)).state.featuredProducts = data.take 4 :=
    rfl
  refine ⟨hst, ?_, ?_, ?_, ?_, ?_⟩
  · rw [hst, List.length_take]
  · rw [hst, List.length_take]
    exact min_le_left _ _
  · exact ⟨data.drop 4, by rw [hst, List.take_append_drop]⟩
  · intro i hi
    rw [hst]
    exact List.getElem?_take_of_lt (lt_of_lt_of_le hi (min_le_left _ _))
  · intro h response
    cases response with
    | ok d =>
      show (d.take 4).length ≤ 4
      rw [List.length_take]
      exact min_le_left _ _
    | failed => exact h

/-- C24, at an instance: of six featured products the first four are stored. -/
theorem fetchFeaturedProducts_first_four_witness :
    (HomeState.mk [] "" false).featuredProducts.length ≤ 4 ∧
    (fetchFeaturedProducts (HomeState.mk [] "" false)
      (Response.ok [sampleProduct "a" 1, sampleProduct "b" 2, sampleProduct "c" 3,
        sampleProduct "d" 4, sampleProduct "e" 5, sampleProduct "f" 6])).state.featuredProducts
      = [sampleProduct "a" 1, sampleProduct "b" 2, sampleProduct "c" 3, sampleProduct "d" 4] ∧
    (∀ response,
      (fetchFeaturedProducts (HomeState.mk [] "" false) response).state.featuredProducts.length
        ≤ 4) :=
  ⟨by decide,
   (fetchFeaturedProducts_first_four (HomeState.mk [] "" false)
      [sampleProduct "a" 1, sampleProduct "b" 2, sampleProduct "c" 3,
        sampleProduct "d" 4, sampleProduct "e" 5, sampleProduct "f" 6]).1,
   (fetchFeaturedProducts_first_four (HomeState.mk [] "" false) []).2.2.2.2.2 (by decide)⟩

/-- C25. A failed subscribe request leaves the whole state, so the typed email
and the `subscribed` flag, unchanged and sets no timer; a successful one sets
`subscribed`, empties the email, keeps the featured products and sets the
3000 ms timer. So `subscribed` or the email change only on success. -/
theorem handleSubscribe_atomic (s : HomeState) :
    (handleSubscribe s Response.failed).state = s ∧
    (handleSubscribe s Response.failed).state.email = s.email ∧
    (handleSubscribe s Response.failed).state.subscribed = s.subscribed ∧
    (handleSubscribe s Response.failed).timeouts = [] ∧
    (handleSubscribe s (Response.ok ())).state.subscribed = true ∧
    (handleSubscribe s (Response.ok ())).state.email = "" ∧
    (handleSubscribe s (Response.ok ())).state.featuredProducts = s.featuredProducts ∧
    (handleSubscribe s (Response.ok ())).timeouts = [3000] ∧
    (∀ response : Response Unit,
      ((handleSubscribe s response).state.subscribed ≠ s.subscribed ∨
        (handleSubscribe s response).state.email ≠ s.email) → response = Response.ok ()) := by
  refine ⟨rfl, rfl, rfl, rfl, rfl, rfl, rfl, rfl, ?_⟩
  intro response h
  cases response with
  | ok u => rfl
  | failed =>
    rcases h with h | h
    · exact absurd rfl h
    · exact absurd rfl h

/-- C25, at an instance: with "a@b.c" typed, a failed request keeps the email
and the flag, a successful one clears the email and sets the flag. -/
theorem handleSubscribe_atomic_witness :
    (handleSubscribe (HomeState.mk [] "a@b.c" false) Response.failed).state
      = HomeState.mk [] "a@b.c" false ∧
    (handleSubscribe (HomeState.mk [] "a@b.c" false) (Response.ok ())).state
      = HomeState.mk [] "" true ∧
    (handleSubscribe (HomeState.mk [] "a@b.c" false) (Response.ok ())).state.email ≠ "a@b.c" :=
  ⟨(handleSubscribe_atomic (HomeState.mk [] "a@b.c" false)).1, rfl, by decide⟩

/-! ## Number inputs: properties -/

theorem isDigit_toNat (c : Char) (h : c.isDigit = true) : 48 ≤ c.toNat ∧ c.toNat ≤ 57 := by
  simp only [Char.isDigit, Bool.and_eq_true, decide_eq_true_eq] at h
  exact ⟨h.1, h.2⟩

theorem isWhiteSpace_of_isDigit (c : Char) (h : c.isDigit = true) : isWhiteSpace c = false := by
  obtain ⟨h1, h2⟩ := isDigit_toNat c h
  simp only [isWhiteSpace, Bool.or_eq_false_iff, decide_eq_false_iff_not, Bool.and_eq_false_iff,
    List.mem_cons, List.mem_singleton, List.not_mem_nil, or_false]
  constructor
  · omega
  · left
    omega

theorem ne_of_isDigit (c d : Char) (h : c.isDigit = true) (hd : d.isDigit = false) : c ≠ d := by
  rintro rfl
  rw [h] at hd
  exact Bool.noConfusion hd

theorem validUnsigned_head (cs : List Char) (h : validUnsigned cs = true) :
    ∃ c t, cs = c :: t ∧ (c.isDigit = true ∨ c = '.') := by
  cases cs with
  | nil => simp [validUnsigned] at h
  | cons c t =>
    refine ⟨c, t, rfl, ?_⟩
    by_cases hc : c.isDigit = true
    · exact Or.inl hc
    · right
      by_contra hdot
      simp only [validUnsigned, List.dropWhile_cons, List.takeWhile_cons, hc] at h
      split at h
      · rename_i r heq
        simp only [Bool.false_eq_true, if_false] at heq
        exact hdot (List.cons.inj heq).1
      · simp at h

theorem strUnsignedDecimalLiteral_of_valid (cs : List Char) (h : validUnsigned cs = true) :
    ∃ q, strUnsignedDecimalLiteral cs = .num q := by
  obtain ⟨c, t, rfl, hc⟩ := validUnsigned_head cs h
  have hI : (c :: t).take 8 ≠ "Infinity".toList := by
    intro hI
    have hcI : c = 'I' := (List.cons.inj hI).1
    rcases hc with hc | hc
    · rw [hcI] at hc
      exact absurd hc (by decide)
    · rw [hcI] at hc
      exact absurd hc (by decide)
  unfold strUnsignedDecimalLiteral
  rw [if_neg hI]
  unfold validUnsigned at h
  split at h
  · rename_i r heq
    simp only [Bool.and_eq_true, Bool.not_eq_true', List.isEmpty_eq_false] at h
    simp only [heq]
    have hfp : ¬ (List.takeWhile Char.isDigit (c :: t) = [] ∧ List.takeWhile Char.isDigit r = []) :=
      fun hh => h.1 (by simpa using hh.2)
    rw [if_neg hfp]
    exact ⟨_, rfl⟩
  · rename_i r hne
    simp only [Bool.and_eq_true, Bool.not_eq_true', List.isEmpty_eq_false] at h
    have hip : ¬ (List.takeWhile Char.isDigit (c :: t) = []) := fun hh => h.1 (by simpa using hh)
    simp only [hip, if_false]
    exact ⟨_, rfl⟩

theorem parseFloat_of_valid (text : String) (h : isValidFloatingPointNumber text = true) :
    ∃ q, parseFloat text = .num q := by
  unfold isValidFloatingPointNumber at h
  unfold parseFloat
  split at h
  · rename_i cs heq
    obtain ⟨q, hq⟩ := strUnsignedDecimalLiteral_of_valid cs h
    have hd : List.dropWhile isWhiteSpace ('-' :: cs) = '-' :: cs := by
      rw [List.dropWhile_cons]
      have : isWhiteSpace '-' = false := by decide
      simp [this]
    rw [heq, hd]
    exact ⟨-q, by simp [hq, JSNumber.neg]⟩
  · rename_i cs hne
    obtain ⟨q, hq⟩ := strUnsignedDecimalLiteral_of_valid _ h
    obtain ⟨c, t, hct, hc⟩ := validUnsigned_head _ h
    have hws : isWhiteSpace c = false := by
      rcases hc with hc | hc
      · exact isWhiteSpace_of_isDigit c hc
      · rw [hc]; decide
    have hplus : c ≠ '+' := by
      rcases hc with hc | hc
      · exact ne_of_isDigit c _ hc (by decide)
      · rw [hc]; decide
    have hminus : c ≠ '-' := by
      rcases hc with hc | hc
      · exact ne_of_isDigit c _ hc (by decide)
      · rw [hc]; decide
    have hd : List.dropWhile isWhiteSpace text.toList = c :: t := by
      rw [hct, List.dropWhile_cons]
      simp [hws]
    rw [hd]
    split
    · rename_i cs2 heq2
      exact absurd (List.cons.inj heq2).1 hplus
    · rename_i cs2 heq2
      exact absurd (List.cons.inj heq2).1 hminus
    · rw [← hct]
      exact ⟨q, hq⟩

theorem numberInputValue_cases (text : String) :
    numberInputValue text = "" ∨ ∃ q, parseFloat (numberInputValue text) = .num q := by
  unfold numberInputValue
  by_cases h : isValidFloatingPointNumber text = true
  · rw [if_pos h]
    exact Or.inr (parseFloat_of_valid text h)
  · rw [if_neg h]
    exact Or.inl rfl

theorem numberInputValue_of_nan (text : String) (h : parseFloat text = .nan) :
    numberInputValue text = "" := by
  unfold numberInputValue
  by_cases hv : isValidFloatingPointNumber text = true
  · obtain ⟨q, hq⟩ := parseFloat_of_valid text hv
    rw [h] at hq
    exact JSNumber.noConfusion hq
  · rw [if_neg hv]

/-- C8. A price entry that fails to parse as a number is treated as unset, and
nothing is raised (the handlers and `applyFilters` are total). For a text that
`parseFloat` reads as `NaN`, and more generally for every text that is not a
valid number of the input, the Min (Max) input stores the empty bound and
`applyFilters` then stores the same list as with that bound empty. Whatever
is typed, the stored bound is empty or parses to a finite number. -/
theorem malformed_price_entry_unset (s : ShopState) (text : String) :
    (parseFloat text = .nan →
      (minInputChange text s).priceRange.min = "" ∧
      (applyFilters (minInputChange text s)).filteredProducts
        = (applyFilters { s with priceRange := { s.priceRange with min := "" } }).filteredProducts ∧
      (maxInputChange text s).priceRange.max = "" ∧
      (applyFilters (maxInputChange text s)).filteredProducts
        = (applyFilters { s with priceRange := { s.priceRange with max := "" } }).filteredProducts) ∧
    (isValidFloatingPointNumber text = false →
      (applyFilters (minInputChange text s)).filteredProducts
        = (applyFilters { s with priceRange := { s.priceRange with min := "" } }).filteredProducts ∧
      (applyFilters (maxInputChange text s)).filteredProducts
        = (applyFilters { s with priceRange := { s.priceRange with max := "" } }).filteredProducts) ∧
    ((minInputChange text s).priceRange.min = "" ∨
      ∃ q, parseFloat (minInputChange text s).priceRange.min = .num q) ∧
    ((maxInputChange text s).priceRange.max = "" ∨
      ∃ q, parseFloat (maxInputChange text s).priceRange.max = .num q) := by
  refine ⟨fun h => ?_, fun h => ?_, numberInputValue_cases text, numberInputValue_cases text⟩
  · have hv := numberInputValue_of_nan text h
    simp [minInputChange, maxInputChange, hv]
  · have hv : numberInputValue text = "" := by simp [numberInputValue, h]
    simp [minInputChange, maxInputChange, hv]

/-- C8, at an instance: with the minimum "150" hiding the product priced 100,
the entry "abc" in the Min input empties the bound and the product is listed
again. -/
theorem malformed_price_entry_unset_witness :
    parseFloat "abc" = .nan ∧
    (applyFilters (shopWith [sampleProduct "black" 100] "" "150" "")).filteredProducts = [] ∧
    (minInputChange "abc" (shopWith [sampleProduct "black" 100] "" "150" "")).priceRange.min = "" ∧
    (applyFilters
        (minInputChange "abc" (shopWith [sampleProduct "black" 100] "" "150" ""))).filteredProducts
      = [sampleProduct "black" 100] :=
  ⟨by decide, by decide!,
   ((malformed_price_entry_unset (shopWith [sampleProduct "black" 100] "" "150" "") "abc").1
      (by decide)).1,
   by decide!⟩

/-! ## Cart pricing with IEEE rounding: properties -/

theorem toDouble_two_point_eight :
    toDouble (14 / 5) = 3152519739159347 / 1125899906842624 := by decide!

theorem toDouble_sixty_five_point_six :
    toDouble (328 / 5) = 2308094809027379 / 35184372088832 := by decide!

theorem getTotalDouble_nil (loading : Bool) : getTotalDouble (CartState.mk [] loading) = 0 := rfl

theorem getTotalDouble_snoc (items : List CartEntry) (x : CartEntry) (loading : Bool) :
    getTotalDouble (CartState.mk (items ++ [x]) loading)
      = numAdd (getTotalDouble (CartState.mk items loading))
          (numMul x.product.price (x.cart_item.quantity : ℚ)) := by
  simp [getTotalDouble, List.foldl_append]

theorem getTotalDouble_eq_getTotal (items : List CartEntry) (loading : Bool)
    (h : ∀ pre y post, items = pre ++ y :: post →
      numMul y.product.price (y.cart_item.quantity : ℚ)
        = y.product.price * (y.cart_item.quantity : ℚ) ∧
      numAdd (getTotal (CartState.mk pre loading)) (y.product.price * (y.cart_item.quantity : ℚ))
        = getTotal (CartState.mk pre loading) + y.product.price * (y.cart_item.quantity : ℚ)) :
    getTotalDouble (CartState.mk items loading) = getTotal (CartState.mk items loading) := by
  induction items using List.reverseRecOn with
  | nil => rfl
  | append_singleton pre y ih =>
    have ihp := ih (fun pre2 y2 post2 h2 => h pre2 y2 (post2 ++ [y]) (by rw [h2]; simp))
    have hy := h pre y [] rfl
    rw [getTotalDouble_snoc, ihp, hy.1, hy.2]
    simp [getTotal, List.foldl_append]

theorem getTotalDouble_rounded_cart :
    getTotalDouble (CartState.mk
        [sampleLine (3152519739159347 / 1125899906842624) 48,
         sampleLine (2308094809027379 / 35184372088832) 1] false)
      = 7036874417766399 / 35184372088832 := by
  have h1 : numMul (3152519739159347 / 1125899906842624) ((48 : ℤ) : ℚ)
      = 1182194902184755 / 8796093022208 := by decide!
  have h2 : numAdd 0 (1182194902184755 / 8796093022208) = 1182194902184755 / 8796093022208 := by
    decide!
  have h3 : numMul (2308094809027379 / 35184372088832) ((1 : ℤ) : ℚ)
      = 2308094809027379 / 35184372088832 := by decide!
  have h4 : numAdd (1182194902184755 / 8796093022208) (2308094809027379 / 35184372088832)
      = 7036874417766399 / 35184372088832 := by decide!
  show numAdd (numAdd 0 (numMul (3152519739159347 / 1125899906842624) ((48 : ℤ) : ℚ)))
      (numMul (2308094809027379 / 35184372088832) ((1 : ℤ) : ℚ)) = _
  rw [h1, h2, h3, h4]

theorem getTotalDouble_hundred_twice :
    getTotalDouble (CartState.mk [sampleLine 100 2] false) = 200 := by
  have h1 : numMul 100 ((2 : ℤ) : ℚ) = 200 := by decide!
  have h2 : numAdd 0 200 = 200 := by decide!
  show numAdd 0 (numMul 100 ((2 : ℤ) : ℚ)) = 200
  rw [h1, h2]

/-- C9, refuted as stated: for the cart of 48 items at 2.8 and one at 65.6
(the doubles nearest to these prices) the page's `getTotal` returns
199.99999999999997, which is neither the sum of price times quantity over the
two lines nor the 200 that the decimal prices add up to. -/
theorem getTotalDouble_rounds :
    toDouble (14 / 5) = 3152519739159347 / 1125899906842624 ∧
    toDouble (328 / 5) = 2308094809027379 / 35184372088832 ∧
    getTotalDouble (CartState.mk
        [sampleLine (3152519739159347 / 1125899906842624) 48,
         sampleLine (2308094809027379 / 35184372088832) 1] false)
      = 7036874417766399 / 35184372088832 ∧
    ([sampleLine (3152519739159347 / 1125899906842624) 48,
        sampleLine (2308094809027379 / 35184372088832) 1].map
        (fun item => item.product.price * (item.cart_item.quantity : ℚ))).sum
      = 14073748835532799 / 70368744177664 ∧
    getTotalDouble (CartState.mk
        [sampleLine (3152519739159347 / 1125899906842624) 48,
         sampleLine (2308094809027379 / 35184372088832) 1] false)
      ≠ ([sampleLine (3152519739159347 / 1125899906842624) 48,
          sampleLine (2308094809027379 / 35184372088832) 1].map
          (fun item => item.product.price * (item.cart_item.quantity : ℚ))).sum ∧
    ((14 / 5 : ℚ) * 48 + 328 / 5 * 1 = 200 ∧
      (7036874417766399 / 35184372088832 : ℚ) < 200) := by
  have hsum : ([sampleLine (3152519739159347 / 1125899906842624) 48,
        sampleLine (2308094809027379 / 35184372088832) 1].map
        (fun item => item.product.price * (item.cart_item.quantity : ℚ))).sum
      = 14073748835532799 / 70368744177664 := by
    simp only [sampleLine, sampleProduct, List.map_cons, List.map_nil, List.sum_cons,
      List.sum_nil]
    norm_num
  refine ⟨toDouble_two_point_eight, toDouble_sixty_five_point_six, getTotalDouble_rounded_cart,
    hsum, ?_, by norm_num, by norm_num⟩
  rw [getTotalDouble_rounded_cart, hsum]
  norm_num

/-- C9 (as amended). Over exact arithmetic `getTotal` is the sum over the items
of `item.product.price * item.cart_item.quantity`, 0 on the empty list. As the
page computes it, it is that sum taken from 0 in list order with every product
and every partial sum rounded to the nearest double: 0 on the empty list, and
on a list with one more item the rounded sum of the total so far and the
rounded product. The two agree whenever no step rounds. -/
theorem getTotal_sum (s : CartState) (x : CartEntry) :
    getTotal s
      = (s.cartItems.map (fun item => item.product.price * (item.cart_item.quantity : ℚ))).sum ∧
    getTotal (CartState.mk [] s.loading) = 0 ∧
    getTotalDouble (CartState.mk [] s.loading) = 0 ∧
    getTotalDouble (CartState.mk (s.cartItems ++ [x]) s.loading)
      = numAdd (getTotalDouble s) (numMul x.product.price (x.cart_item.quantity : ℚ)) ∧
    ((∀ pre y post, s.cartItems = pre ++ y :: post →
        numMul y.product.price (y.cart_item.quantity : ℚ)
          = y.product.price * (y.cart_item.quantity : ℚ) ∧
        numAdd (getTotal (CartState.mk pre s.loading))
            (y.product.price * (y.cart_item.quantity : ℚ))
          = getTotal (CartState.mk pre s.loading)
            + y.product.price * (y.cart_item.quantity : ℚ)) →
      getTotalDouble s = getTotal s) := by
  refine ⟨(getTotal_eq_sum s).1, by simp [getTotal], rfl, ?_, ?_⟩
  · exact getTotalDouble_snoc s.cartItems x s.loading
  · intro h
    exact getTotalDouble_eq_getTotal s.cartItems s.loading h

/-- C9 as amended, at an instance: for one line of price 100 and quantity 2 no
step rounds, and the page's `getTotal` is the exact sum, 200. -/
theorem getTotal_sum_witness :
    getTotalDouble (CartState.mk [sampleLine 100 2] false)
      = getTotal (CartState.mk [sampleLine 100 2] false) ∧
    getTotal (CartState.mk [sampleLine 100 2] false) = 200 :=
  ⟨(getTotal_sum (CartState.mk [sampleLine 100 2] false) (sampleLine 100 2)).2.2.2.2
      (by
        intro pre y post h
        cases pre with
        | nil =>
          simp only [List.nil_append, List.cons.injEq] at h
          obtain ⟨rfl, _⟩ := h
          constructor
          · show numMul 100 ((2 : ℤ) : ℚ) = 100 * ((2 : ℤ) : ℚ)
            have h1 : numMul 100 ((2 : ℤ) : ℚ) = 200 := by decide!
            rw [h1]; norm_num
          · show numAdd 0 (100 * ((2 : ℤ) : ℚ)) = 0 + 100 * ((2 : ℤ) : ℚ)
            have h2 : numAdd 0 (100 * ((2 : ℤ) : ℚ)) = 200 := by decide!
            rw [h2]; norm_num
        | cons a pre2 =>
          simp only [List.cons_append, List.cons.injEq] at h
          exact absurd h.2 (by simp)),
   by decide!⟩

theorem cartPage_summary (s : CartState) (hl : s.loading = false) (hne : s.cartItems ≠ []) :
    cartPage s = .summary ("$" ++ toFixed2 (getTotalDouble s))
      (if getTotalDouble s ≥ 200 then "FREE" else "$15.00")
      ("$" ++ toFixed2 (numAdd (getTotalDouble s) (if getTotalDouble s ≥ 200 then 0 else 15))) := by
  have hlen : ¬ s.cartItems.length = 0 := by
    simpa [List.length_eq_zero] using hne
  simp [cartPage, hl, hlen]

/-- C10 (as amended). For every loaded, non-empty cart the order summary is
rendered on the subtotal that the page's `getTotal` computes: the Shipping row
reads "FREE" iff that subtotal is at least 200 and "$15.00" iff it is below,
and the Total row shows the subtotal plus 0 in the first case and plus 15 in
the second. -/
theorem cartPage_shipping (s : CartState) (hl : s.loading = false) (hne : s.cartItems ≠ []) :
    ∃ shipping total,
      cartPage s = .summary ("$" ++ toFixed2 (getTotalDouble s)) shipping total ∧
      (shipping = "FREE" ↔ 200 ≤ getTotalDouble s) ∧
      (shipping = "$15.00" ↔ getTotalDouble s < 200) ∧
      (200 ≤ getTotalDouble s → total = "$" ++ toFixed2 (numAdd (getTotalDouble s) 0)) ∧
      (getTotalDouble s < 200 → total = "$" ++ toFixed2 (numAdd (getTotalDouble s) 15)) := by
  have hv := cartPage_summary s hl hne
  by_cases h : 200 ≤ getTotalDouble s
  · refine ⟨"FREE", "$" ++ toFixed2 (numAdd (getTotalDouble s) 0), ?_, ?_, ?_, ?_, ?_⟩
    · rw [hv]; simp [h]
    · simp [h]
    · constructor
      · intro hc; exact absurd hc (by decide)
      · intro hc; exact absurd h (not_le.2 hc)
    · intro _; rfl
    · intro hc; exact absurd h (not_le.2 hc)
  · refine ⟨"$15.00", "$" ++ toFixed2 (numAdd (getTotalDouble s) 15), ?_, ?_, ?_, ?_, ?_⟩
    · rw [hv]; simp [h]
    · constructor
      · intro hc; exact absurd hc (by decide)
      · intro hc; exact absurd hc h
    · simp [not_le.1 h]
    · intro hc; exact absurd hc h
    · intro _; rfl

theorem cartPage_hundred_twice :
    cartPage (CartState.mk [sampleLine 100 2] false) = .summary "$200.00" "FREE" "$200.00" := by
  rw [cartPage_summary _ rfl (by decide), getTotalDouble_hundred_twice]
  have h1 : numAdd 200 0 = 200 := by decide!
  have h2 : toFixed2 200 = "200.00" := by decide!
  have h3 : "$" ++ "200.00" = "$200.00" := by decide
  simp [h1, h2, h3]

/-- C10 as amended, at the boundary: one line of price 100 and quantity 2 is
shown with Subtotal "$200.00", Shipping "FREE" and Total "$200.00". -/
theorem cartPage_shipping_witness :
    ((CartState.mk [sampleLine 100 2] false).loading = false ∧
      (CartState.mk [sampleLine 100 2] false).cartItems ≠ []) ∧
    getTotalDouble (CartState.mk [sampleLine 100 2] false) = 200 ∧
    cartPage (CartState.mk [sampleLine 100 2] false) = .summary "$200.00" "FREE" "$200.00" ∧
    (∃ shipping total,
      cartPage (CartState.mk [sampleLine 100 2] false)
        = .summary ("$" ++ toFixed2 (getTotalDouble (CartState.mk [sampleLine 100 2] false)))
            shipping total ∧
      (shipping = "FREE" ↔ 200 ≤ getTotalDouble (CartState.mk [sampleLine 100 2] false)) ∧
      (shipping = "$15.00" ↔ getTotalDouble (CartState.mk [sampleLine 100 2] false) < 200) ∧
      (200 ≤ getTotalDouble (CartState.mk [sampleLine 100 2] false) →
        total = "$" ++ toFixed2
          (numAdd (getTotalDouble (CartState.mk [sampleLine 100 2] false)) 0)) ∧
      (getTotalDouble (CartState.mk [sampleLine 100 2] false) < 200 →
        total = "$" ++ toFixed2
          (numAdd (getTotalDouble (CartState.mk [sampleLine 100 2] false)) 15))) :=
  ⟨⟨rfl, by decide⟩, getTotalDouble_hundred_twice, cartPage_hundred_twice,
   cartPage_shipping (CartState.mk [sampleLine 100 2] false) rfl (by decide)⟩

/-- The cart of 48 items at 2.8 and one at 65.6: the computed subtotal lies
just below 200, so the page shows Subtotal "$200.00" with Shipping "$15.00"
and Total "$215.00". -/
theorem cartPage_rounded_boundary :
    cartPage (CartState.mk
        [sampleLine (3152519739159347 / 1125899906842624) 48,
         sampleLine (2308094809027379 / 35184372088832) 1] false)
      = .summary "$200.00" "$15.00" "$215.00" := by
  rw [cartPage_summary _ rfl (by simp), getTotalDouble_rounded_cart]
  have hlt : ¬ ((7036874417766399 / 35184372088832 : ℚ) ≥ 200) := by norm_num
  have h1 : numAdd (7036874417766399 / 35184372088832) 15
      = 7564639999098879 / 35184372088832 := by decide!
  have h2 : toFixed2 (7036874417766399 / 35184372088832) = "200.00" := by decide!
  have h3 : toFixed2 (7564639999098879 / 35184372088832) = "215.00" := by decide!
  have h4 : "$" ++ "200.00" = "$200.00" := by decide
  have h5 : "$" ++ "215.00" = "$215.00" := by decide
  simp only [hlt, if_false, h1, h2, h3, h4, h5]

end ApexDrop
